import Mathlib

/-!
Verification of the parameter-resolution and transaction-orchestration pipeline of the
BNB-chain agent plugin (actions: transfer, swap, bridge, stake, faucet).

The development is a shallow embedding of the TypeScript sources:
pure helpers of the viem library (parseUnits, formatUnits) are reimplemented over Nat and Int,
each action executor becomes a function from its parameters and an environment record
(the results the external chain collaborator would return) to a result together with the
ordered list of collaborator calls it issues, and each action handler becomes a function
from its extraction inputs (regex-match captures, model-generated JSON content) to an outcome.

Conventions:
  - machine integers (bigint wei amounts) are Nat or Int, never bounded words;
  - a JavaScript string option whose absent, null and empty values are all falsy is an
    Option String where none models undefined and the empty string keeps its JS falsiness;
  - fallible steps return Except String, the error carrying the thrown message
    (quotation marks of the original messages are dropped).
-/

/-! ## Generic string and number helpers -/

/-- Upper-case a string character by character (JS toUpperCase on ASCII input). -/
def strToUpper (s : String) : String :=
  String.mk (s.toList.map Char.toUpper)

/-- Lower-case a string character by character (JS toLowerCase on ASCII input). -/
def strToLower (s : String) : String :=
  String.mk (s.toList.map Char.toLower)

/-- Prefix test (JS String.prototype.startsWith). -/
def strStartsWith (s pre : String) : Bool :=
  pre.toList.isPrefixOf s.toList

/-- True when the pattern occurs as a substring (JS String.prototype.includes):
some suffix of the text has the pattern as prefix. -/
def containsStr (s pat : String) : Bool :=
  s.toList.tails.any (fun t => pat.toList.isPrefixOf t)

/-- Split at the first occurrence of a pattern: the part before it and the part
after it, or none when the pattern does not occur. -/
def splitAtFirst : List Char → List Char → Option (List Char × List Char)
  | [], pat => if pat.isPrefixOf ([] : List Char) then some ([], []) else none
  | c :: rest, pat =>
    if pat.isPrefixOf (c :: rest) then some ([], (c :: rest).drop pat.length)
    else
      match splitAtFirst rest pat with
      | some (pre, post) => some (c :: pre, post)
      | none => none

/-- Remove trailing zero characters (JS replace of the trailing-zero group). -/
def trimTrailingZeros (s : String) : String :=
  String.mk ((s.toList.reverse.dropWhile (fun c => c = '0')).reverse)

/-- Numeric value of a digit list (leading zeros allowed). -/
def digitsToNat (l : List Char) : Nat :=
  l.foldl (fun n c => n * 10 + (c.toNat - '0'.toNat)) 0

/-- Left-pad with zero characters up to the given length (JS padStart with zero). -/
def padStartZeros (s : String) (n : Nat) : String :=
  String.mk (List.replicate (n - s.length) '0') ++ s

/-- Embeds viem parseUnits for unsigned decimal numerals: value split at the dot,
trailing zeros of the fraction removed, scaled by 10 to the decimals; a fraction
longer than the decimals is rounded half-up exactly as viem Math.round does.
Strings that are not plain unsigned decimals yield none (viem throws
InvalidDecimalNumberError on them). -/
def parseUnits (s : String) (d : Nat) : Option Nat :=
  match s.toList.splitOn '.' with
  | [i] =>
    if i.all Char.isDigit ∧ i ≠ [] then some (digitsToNat i * 10 ^ d) else none
  | [i, f] =>
    if i.all Char.isDigit ∧ f.all Char.isDigit ∧ (i ≠ [] ∨ f ≠ []) then
      let ft := (f.reverse.dropWhile (fun c => c = '0')).reverse
      if ft.length ≤ d then
        some (digitsToNat i * 10 ^ d + digitsToNat ft * 10 ^ (d - ft.length))
      else
        let q := 10 ^ (ft.length - d)
        some ((digitsToNat i * 10 ^ ft.length + digitsToNat ft + q / 2) / q)
    else none
  | _ => none

/-- viem parseEther: parseUnits with 18 decimals. -/
def parseEther (s : String) : Option Nat :=
  parseUnits s 18

/-- Embeds viem formatUnits: decimal rendering of a base-unit integer, fraction
trimmed of trailing zeros and omitted when zero. -/
def formatUnits (value : Int) (d : Nat) : String :=
  let neg := value < 0
  let display := padStartZeros (Nat.repr value.natAbs) d
  let integer := display.take (display.length - d)
  let fraction := trimTrailingZeros (display.drop (display.length - d))
  (if neg then "-" else "") ++ (if integer = "" then "0" else integer) ++
    (if fraction = "" then "" else "." ++ fraction)

/-- viem formatEther: formatUnits with 18 decimals. -/
def formatEther (value : Int) : String :=
  formatUnits value 18

/-- Embeds the Number.parseFloat based positivity test of the validators:
true exactly when the string has a leading unsigned decimal-numeral prefix
(so parseFloat does not give NaN) whose value is strictly positive.
Signs, exponents and leading whitespace do not occur in the extracted amounts. -/
def jsParseFloatPos (s : String) : Bool :=
  let cs := s.toList
  let intPart := cs.takeWhile Char.isDigit
  let rest := cs.drop intPart.length
  let fracPart :=
    match rest with
    | '.' :: r => r.takeWhile Char.isDigit
    | _ => []
  if intPart.isEmpty ∧ fracPart.isEmpty then false
  else (intPart ++ fracPart).any (fun c => c ≠ '0')

/-- JS truthiness of an optional string (undefined, null and the empty string are falsy). -/
def optTruthy : Option String → Bool
  | none => false
  | some s => s != ""

/-- JS falsiness of an optional string. -/
def strFalsy : Option String → Bool
  | none => true
  | some s => s == ""

/-! ## Model-generated JSON values -/

/-- A JSON decimal number num / 10 ^ exp, as written in a JSON literal. -/
structure JNum where
  num : Int
  exp : Nat
deriving DecidableEq

/-- Order on JSON decimals by cross multiplication. -/
def JNum.le (a b : JNum) : Bool :=
  a.num * (10 : Int) ^ b.exp ≤ b.num * (10 : Int) ^ a.exp

/-- Strict order on JSON decimals by cross multiplication. -/
def JNum.lt (a b : JNum) : Bool :=
  a.num * (10 : Int) ^ b.exp < b.num * (10 : Int) ^ a.exp

/-- JS String conversion of a JSON decimal (shortest decimal rendering). -/
def JNum.jsString (n : JNum) : String :=
  formatUnits n.num n.exp

/-- A JSON value as produced by the model collaborator. -/
inductive JVal
  | jstr (s : String)
  | jnum (n : JNum)
  | jbool (b : Bool)
  | jnull
deriving DecidableEq

/-- JS truthiness of a JSON value. -/
def JVal.truthy : JVal → Bool
  | .jstr s => s ≠ ""
  | .jnum n => n.num ≠ 0
  | .jbool b => b
  | .jnull => false

/-- JS String conversion of a JSON value. -/
def JVal.jsToString : JVal → String
  | .jstr s => s
  | .jnum n => n.jsString
  | .jbool b => if b then "true" else "false"
  | .jnull => "null"

/-! ## Collaborator-call events

Each executor run is recorded as the ordered list of calls it issues to the wallet,
chain and token-directory collaborators. -/

/-- One call to an external collaborator. -/
inductive Ev
  | switchChain (chain : String)
  | getBalance
  | readDecimals (token : String)
  | readBalanceOf (token : String)
  | readDelegationFee
  | checkAllowance (token : String) (spender : String)
  | approveERC20 (token : String) (spender : String) (amount : Nat)
  | waitForReceipt (hash : String)
  | simulate (fn : String)
  | writeContract (fn : String) (value : Int)
  | transferNative (recipient : String) (value : Int)
  | transferERC20 (token : String) (recipient : String) (value : Nat)
  | configureLiFiSdk (chain : String)
  | getTokenAddress (chain : String) (symbol : String)
  | getRoutes
  | executeRoute
  | readWithdrawRequests
  | readRequestStatus (idx : Nat)
  | claimWithdraw (idx : Nat)
deriving DecidableEq

/-! ## TransferAction (src/actions/transfer.ts) -/

namespace TransferAction

/-- TRANSFER_GAS constant of TransferAction. -/
def TRANSFER_GAS : Nat := 21000

/-- DEFAULT_GAS_PRICE constant of TransferAction (3 Gwei). -/
def DEFAULT_GAS_PRICE : Nat := 3000000000

/-- TransferParams as built by the handler (the data field is omitted: it only adds a
payload to the native call and never changes the control flow modelled here). -/
structure TransferParams where
  chain : String
  token : Option String
  amount : Option String
  toAddress : String
deriving DecidableEq

/-- TransferResponse of a completed transfer. -/
structure TransferResponse where
  chain : String
  txHash : String
  recipient : String
  amount : String
  token : String
deriving DecidableEq

/-- Results the external collaborators return during one transfer run.
formatAddress and getTokenAddress live in the wallet provider, which the sources
consume as a collaborator; they are taken as oracle functions. The balance-logging
read and the decimals read are modelled as always answering (their failures are
caught or rewrapped without changing the control paths the claims are about). -/
structure TransferEnv where
  chains : List String
  nativeSymbol : String
  formatAddress : String → Except String String
  balance : Int
  tokenAddressOf : String → String → Except String String
  decimalsOf : String → Nat
  tokenBalanceOf : String → Nat
  transferResult : Except String String
  transferERC20Result : Except String String
  waitReceiptResult : Except String Unit

/-- Embeds TransferAction.validateAndNormalizeParams: the recipient is required and
formatted through the wallet provider; a formatting failure is rewrapped. -/
def validateAndNormalizeParams (env : TransferEnv) (p : TransferParams) :
    Except String TransferParams :=
  if p.toAddress = "" then .error "To address is required"
  else
    match env.formatAddress p.toAddress with
    | .ok a => .ok { p with toAddress := a }
    | .error _ => .error ("Invalid address format: " ++ p.toAddress)

/-- Native-branch value selection: without an amount the whole balance is read and the
fixed gas reserve DEFAULT_GAS_PRICE * 21000 is subtracted; with an amount it is parsed
with parseEther, a parse failure being rewrapped. -/
def nativeValue (env : TransferEnv) (amount : Option String) :
    Except String Int × List Ev :=
  if strFalsy amount then
    (.ok (env.balance - (DEFAULT_GAS_PRICE * 21000 : Nat)), [Ev.getBalance])
  else
    match parseEther (amount.getD "") with
    | some v => (.ok (v : Int), [])
    | none =>
      (.error ("Invalid amount format: " ++ amount.getD "" ++
        ". Please provide a valid number."), [])

/-- Native-branch execution: compute the value, then submit through the wallet
provider transfer call. -/
def nativeRun (env : TransferEnv) (p : TransferParams) (token : String) :
    Except String TransferResponse × List Ev :=
  match nativeValue env p.amount with
  | (.error e, evs) => (.error e, evs)
  | (.ok value, evs) =>
    let evs := evs ++ [Ev.transferNative p.toAddress value]
    match env.transferResult with
    | .error e => (.error e, evs)
    | .ok h =>
      (.ok { chain := p.chain, txHash := h, recipient := p.toAddress,
             amount := formatUnits value 18, token := token }, evs)

/-- Token-address resolution of the ERC20 branch: an address is used directly;
a symbol configures the LI.FI SDK and queries the token directory, any failure or a
non-address result being rewrapped into the could-not-find-token message. -/
def resolveTokenAddr (env : TransferEnv) (chain token : String) :
    Except String String × List Ev :=
  if strStartsWith token "0x" then (.ok token, [])
  else
    let evs := [Ev.configureLiFiSdk chain, Ev.getTokenAddress chain token]
    let bad := "Could not find token " ++ token ++ " on chain " ++ chain ++
      ". Please check the token symbol or use the contract address."
    match env.tokenAddressOf chain token with
    | .ok a => if strStartsWith a "0x" then (.ok a, evs) else (.error bad, evs)
    | .error _ => (.error bad, evs)

/-- ERC20-branch value selection: without an amount the token balance is read;
with an amount it is parsed with parseUnits at the token decimals. -/
def erc20Value (env : TransferEnv) (tokenAddress : String) (amount : Option String)
    (decimals : Nat) : Except String Nat × List Ev :=
  if strFalsy amount then
    (.ok (env.tokenBalanceOf tokenAddress), [Ev.readBalanceOf tokenAddress])
  else
    match parseUnits (amount.getD "") decimals with
    | some v => (.ok v, [])
    | none =>
      (.error ("Invalid amount format: " ++ amount.getD "" ++
        ". Please provide a valid number."), [])

/-- ERC20-branch execution: resolve the token address, read decimals, compute the
value, submit through the wallet provider ERC20 transfer call. -/
def erc20Run (env : TransferEnv) (p : TransferParams) (token : String) :
    Except String TransferResponse × List Ev :=
  match resolveTokenAddr env p.chain token with
  | (.error e, evs) => (.error e, evs)
  | (.ok tokenAddress, evs) =>
    let evs := evs ++ [Ev.readDecimals tokenAddress]
    let decimals := env.decimalsOf tokenAddress
    match erc20Value env tokenAddress p.amount decimals with
    | (.error e, evs2) => (.error e, evs ++ evs2)
    | (.ok value, evs2) =>
      let evs := evs ++ evs2 ++ [Ev.transferERC20 tokenAddress p.toAddress value]
      match env.transferERC20Result with
      | .error e => (.error e, evs)
      | .ok h =>
        (.ok { chain := p.chain, txHash := h, recipient := p.toAddress,
               amount := formatUnits (value : Int) decimals, token := token }, evs)

/-- Final steps shared by the native and ERC20 branches: an empty or 0x hash is an
error; the receipt wait is attempted and its failure is caught, the response being
returned either way. -/
def finish (env : TransferEnv) (resp : TransferResponse) (evs : List Ev) :
    Except String TransferResponse × List Ev :=
  if resp.txHash = "" ∨ resp.txHash = "0x" then
    (.error "Get transaction hash failed", evs)
  else
    let evs := evs ++ [Ev.waitForReceipt resp.txHash]
    match env.waitReceiptResult with
    | .ok _ => (.ok resp, evs)
    | .error _ => (.ok resp, evs)

/-- Embeds TransferAction.transfer: chain-support check, parameter validation, token
defaulting against the native symbol, then dispatch between the native branch, the
BNB special case inside the ERC20 branch (which returns early, skipping the hash
check and the receipt wait) and the ERC20 branch. -/
def transfer (env : TransferEnv) (p : TransferParams) :
    Except String TransferResponse × List Ev :=
  if ¬ env.chains.contains p.chain then
    (.error ("Chain " ++ p.chain ++ " is not supported."), [])
  else
    match validateAndNormalizeParams env p with
    | .error e => (.error e, [])
    | .ok p =>
      let nativeToken := if env.nativeSymbol = "" then "BNB" else env.nativeSymbol
      let token :=
        match p.token with
        | none => nativeToken
        | some t =>
          if t = "" then nativeToken
          else if strToLower t = strToLower nativeToken then nativeToken
          else t
      let evs0 := [Ev.switchChain p.chain, Ev.getBalance]
      if token = "null" ∨ token = nativeToken then
        match nativeRun env p token with
        | (.error e, evs) => (.error e, evs0 ++ evs)
        | (.ok resp, evs) => finish env resp (evs0 ++ evs)
      else if token = "BNB" ∨ token = "bnb" then
        match nativeRun env p nativeToken with
        | (.error e, evs) => (.error e, evs0 ++ evs)
        | (.ok resp, evs) => (.ok resp, evs0 ++ evs)
      else
        match erc20Run env p token with
        | (.error e, evs) => (.error e, evs0 ++ evs)
        | (.ok resp, evs) => finish env resp (evs0 ++ evs)

end TransferAction

/-! ## SwapAction (src/actions/swap.ts) -/

namespace SwapAction

/-- SwapParams as built by the handler. -/
structure SwapParams where
  chain : String
  fromToken : String
  toToken : String
  amount : String
  slippage : Option JNum
deriving DecidableEq

/-- SwapResponse of a completed swap. -/
structure SwapResponse where
  chain : String
  txHash : String
  fromToken : String
  toToken : String
  amount : String
deriving DecidableEq

/-- Results the external collaborators return during one swap run: the token
directory answer, the number of routes found, the status of the last execution
process and its transaction hash (none models a missing status). -/
structure SwapEnv where
  tokenAddressOf : String → String → Except String String
  routesCount : Nat
  execStatus : Option String
  execTxHash : String

/-- Embeds SwapAction.validateAndNormalizeParams: only BSC mainnet (or the empty
chain, which defaults to it); both tokens required and distinct; the amount must
parse through parseEther to a positive value (a zero or unparsable amount is
rewrapped by the surrounding catch); a given slippage must lie in (0, 1], an
absent one defaults to 0.05. -/
def validateAndNormalizeParams (p : SwapParams) : Except String SwapParams :=
  if p.chain ≠ "" ∧ p.chain ≠ "bsc" then
    .error "Only BSC mainnet is supported for swaps"
  else
    let p := if p.chain = "" then { p with chain := "bsc" } else p
    if p.fromToken = "" then .error "From token is required for swap"
    else if p.toToken = "" then .error "To token is required for swap"
    else if p.fromToken = p.toToken then
      .error ("Cannot swap from and to the same token: " ++ p.fromToken)
    else if p.amount = "" then .error "Amount is required for swap"
    else
      match parseEther p.amount with
      | none =>
        .error ("Invalid swap amount: " ++ p.amount ++ ". Please provide a valid number.")
      | some 0 =>
        .error ("Invalid swap amount: " ++ p.amount ++ ". Please provide a valid number.")
      | some _ =>
        match p.slippage with
        | some s =>
          if JNum.le s { num := 0, exp := 0 } ∨ JNum.lt { num := 1, exp := 0 } s then
            .error "Slippage must be between 0 and 1 (e.g., 0.05 for 5%)"
          else .ok p
        | none => .ok { p with slippage := some { num := 5, exp := 2 } }

/-- The reserved native-token sentinel address used for route finding. -/
def NATIVE_SENTINEL : String := "0xEeeeeEeeeEeEeeEeEeEeeEEEeeeeEeeeeeeeEEeE"

/-- Token resolution of the swap executor: a 0x address is used directly; any other
symbol is resolved through the token directory first, and only after a successful
resolution is a BNB symbol overridden with the native sentinel address. A failed
resolution is rewrapped into the could-not-find-token message. -/
def resolveSwapToken (env : SwapEnv) (chain token : String) :
    Except String String × List Ev :=
  if ¬ strStartsWith token "0x" then
    let evs := [Ev.getTokenAddress chain token]
    match env.tokenAddressOf chain token with
    | .ok a =>
      if strToUpper token = "BNB" then (.ok NATIVE_SENTINEL, evs)
      else (.ok a, evs)
    | .error _ =>
      (.error ("Could not find token " ++ token ++ " on chain " ++ chain ++
        ". Please check the token symbol."), evs)
  else (.ok token, [])

/-- The catch surrounding route finding and execution: insufficient-funds and
response-parsing failures are rewritten, everything else is rethrown. -/
def swapInnerRewrite (p : SwapParams) (e : String) : String :=
  if containsStr e "insufficient funds" then
    "Insufficient funds for swapping " ++ p.amount ++ " " ++ p.fromToken ++
      ". Please check your balance."
  else if containsStr e "Cannot read properties" then
    "Error processing swap response. This might be due to rate limits or invalid token parameters."
  else e

/-- Embeds SwapAction.swap: validation, LI.FI configuration, token resolution for
both sides, route finding (no route is an error), route execution (a missing or
FAILED final process status is an error). -/
def swap (env : SwapEnv) (p : SwapParams) : Except String SwapResponse × List Ev :=
  match validateAndNormalizeParams p with
  | .error e => (.error e, [])
  | .ok p =>
    let evs0 := [Ev.configureLiFiSdk p.chain]
    match resolveSwapToken env p.chain p.fromToken with
    | (.error e, evs1) => (.error e, evs0 ++ evs1)
    | (.ok _, evs1) =>
      match resolveSwapToken env p.chain p.toToken with
      | (.error e, evs2) => (.error e, evs0 ++ evs1 ++ evs2)
      | (.ok _, evs2) =>
        let evs := evs0 ++ evs1 ++ evs2 ++ [Ev.getRoutes]
        if env.routesCount = 0 then
          (.error (swapInnerRewrite p ("No routes found from " ++ p.fromToken ++
            " to " ++ p.toToken ++ " with amount " ++ p.amount)), evs)
        else
          let evs := evs ++ [Ev.executeRoute]
          match env.execStatus with
          | none => (.error (swapInnerRewrite p "Transaction failed: unknown error"), evs)
          | some st =>
            if st = "FAILED" then
              (.error (swapInnerRewrite p ("Transaction failed: " ++ st)), evs)
            else
              (.ok { chain := p.chain, txHash := env.execTxHash,
                     fromToken := p.fromToken, toToken := p.toToken,
                     amount := p.amount }, evs)

end SwapAction

/-! ## BridgeAction (src/actions/bridge.ts) -/

namespace BridgeAction

/-- L1 standard bridge contract address. -/
def L1_BRIDGE_ADDRESS : String := "0xF05F0e4362859c3331Cb9395CBC201E3Fa6757Ea"

/-- L2 standard bridge contract address. -/
def L2_BRIDGE_ADDRESS : String := "0x4000698e3De52120DE28181BaACda82B21568416"

/-- Legacy ERC20 address standing for native BNB in the L2 withdraw call. -/
def LEGACY_ERC20_ETH : String := "0xDeadDeAddeAddEAddeadDEaDDEAdDeaDDeAD0000"

/-- BridgeParams as built by the handler: the token fields hold 0x addresses when
present (the handler filters everything else to undefined). -/
structure BridgeParams where
  fromChain : String
  toChain : String
  fromToken : Option String
  toToken : Option String
  amount : String
  toAddress : Option String
deriving DecidableEq

/-- BridgeResponse of a completed bridge. -/
structure BridgeResponse where
  fromChain : String
  toChain : String
  fromToken : String
  toToken : String
  amount : String
  txHash : String
  recipient : String
deriving DecidableEq

/-- Results the external collaborators return during one bridge run. -/
structure BridgeEnv where
  walletAddress : String
  decimalsOf : String → Nat
  allowance : Nat
  delegationFee : Nat
  approveHash : String
  writeHash : String

/-- The BNB test applied to the from-token. -/
def fromTokenIsBnb (fromToken : Option String) : Bool :=
  match fromToken with
  | some s => strToUpper s = "BNB"
  | none => false

/-- The destination-token requirement of a BSC-to-opBNB ERC20 bridge: a truthy
non-BNB from-token needs a truthy 0x destination token. -/
def erc20DestCheck (p : BridgeParams) : Except String Unit :=
  if p.fromChain = "bsc" ∧ p.toChain = "opBNB" ∧ optTruthy p.fromToken then
    if ¬ fromTokenIsBnb p.fromToken then
      if ¬ optTruthy p.toToken then
        .error "When bridging ERC20 tokens from BSC to opBNB, the token address on opBNB is required"
      else
        match p.toToken with
        | some t =>
          if ¬ strStartsWith t "0x" then
            .error ("Invalid token address: " ++ t ++ ". Please provide a 0x-prefixed address.")
          else .ok ()
        | none => .ok ()
    else .ok ()
  else .ok ()

/-- Embeds BridgeAction.validateAndNormalizeParams: source chain defaults to bsc,
destination chain required, only the two supported directions pass, the amount must
be a positive number for parseFloat, the ERC20 destination-token requirement is
enforced, a BNB from-token is normalized to undefined, and a truthy destination
address must be a 42-character 0x string. -/
def validateAndNormalizeParams (p : BridgeParams) : Except String BridgeParams :=
  let p := if p.fromChain = "" then { p with fromChain := "bsc" } else p
  if p.toChain = "" then .error "Destination chain is required for bridging"
  else if ¬ ((p.fromChain = "bsc" ∧ p.toChain = "opBNB") ∨
             (p.fromChain = "opBNB" ∧ p.toChain = "bsc")) then
    .error "Unsupported bridge direction. Currently only supporting: BSC ↔ opBNB"
  else if p.amount = "" then .error "Amount is required for bridging"
  else if ¬ jsParseFloatPos p.amount then
    .error ("Invalid amount format: " ++ p.amount ++ ". Please provide a valid number.")
  else
    match erc20DestCheck p with
    | .error e => .error e
    | .ok _ =>
      let p := if fromTokenIsBnb p.fromToken then { p with fromToken := none } else p
      match p.toAddress with
      | some a =>
        if a ≠ "" ∧ ¬ (strStartsWith a "0x" ∧ a.length = 42) then
          .error ("Invalid destination address: " ++ a ++
            ". Please provide a valid 0x-prefixed address.")
        else .ok p
      | none => .ok p

/-- The native-token classification of the bridge executor. -/
def isNativeTokenBridge (p : BridgeParams) : Bool :=
  p.fromToken.isNone || fromTokenIsBnb p.fromToken

/-- Amount computation of the bridge executor: parseEther for a native bridge,
a decimals read followed by parseUnits for an ERC20 bridge. An unparsable amount
models the viem throw. -/
def bridgeAmount (env : BridgeEnv) (p : BridgeParams) (native : Bool) :
    Except String Nat × List Ev :=
  if native then
    match parseEther p.amount with
    | some v => (.ok v, [])
    | none => (.error "Number is not a valid decimal number.", [])
  else
    match p.fromToken with
    | some tok =>
      let evs := [Ev.readDecimals tok]
      match parseUnits p.amount (env.decimalsOf tok) with
      | some v => (.ok v, evs)
      | none => (.error "Number is not a valid decimal number.", evs)
    | none => (.error "Number is not a valid decimal number.", [])

/-- Allowance pre-step of an ERC20 bridge: the live allowance is read and, when it
is below the required amount, one approval for the full amount is submitted and
its receipt awaited. -/
def ensureAllowance (env : BridgeEnv) (tok spender : String) (amt : Nat) : List Ev :=
  [Ev.checkAllowance tok spender] ++
    (if env.allowance < amt then
      [Ev.approveERC20 tok spender amt, Ev.waitForReceipt env.approveHash]
    else [])

/-- Embeds BridgeAction.bridge: validation first (throwing before any chain call),
then chain switch, amount computation, and the direction-specific call sequence:
on BSC to opBNB the allowance pre-step for ERC20 and one of the four deposit
variants selected by the self-bridge and native-token flags; on opBNB to BSC the
delegation-fee read, the allowance pre-step for ERC20 and the withdraw call whose
value is amount plus fee for native and fee alone for ERC20. -/
def bridge (env : BridgeEnv) (p0 : BridgeParams) :
    Except String BridgeResponse × List Ev :=
  match validateAndNormalizeParams p0 with
  | .error e => (.error e, [])
  | .ok p =>
    let native := isNativeTokenBridge p
    let selfBridge := p.toAddress = none
    let resp : BridgeResponse :=
      { fromChain := p.fromChain, toChain := p.toChain,
        fromToken := if native then "BNB" else p.fromToken.getD "",
        toToken := if native then "BNB" else p.toToken.getD "",
        amount := p.amount, txHash := "0x",
        recipient := p.toAddress.getD env.walletAddress }
    let evs0 := [Ev.switchChain p.fromChain]
    match bridgeAmount env p native with
    | (.error e, evsA) => (.error e, evs0 ++ evsA)
    | (.ok amt, evsA) =>
      if p.fromChain = "bsc" ∧ p.toChain = "opBNB" then
        let evs1 :=
          if native then []
          else ensureAllowance env (p.fromToken.getD "") L1_BRIDGE_ADDRESS amt
        let fn :=
          if selfBridge then (if native then "depositETH" else "depositERC20")
          else (if native then "depositETHTo" else "depositERC20To")
        let value : Int := if native then (amt : Int) else 0
        (.ok { resp with txHash := env.writeHash },
         evs0 ++ evsA ++ evs1 ++ [Ev.simulate fn, Ev.writeContract fn value])
      else
        let evsF := [Ev.readDelegationFee]
        let evs1 :=
          if native then []
          else ensureAllowance env (p.fromToken.getD "") L2_BRIDGE_ADDRESS amt
        let value : Int :=
          if native then ((amt : Int) + (env.delegationFee : Int))
          else (env.delegationFee : Int)
        (.ok { resp with txHash := env.writeHash },
         evs0 ++ evsA ++ evsF ++ evs1 ++
           [Ev.simulate "withdraw", Ev.writeContract "withdraw" value])

end BridgeAction

/-! ## StakeAction (stake source file) -/

namespace StakeAction

/-- Lista DAO contract address. -/
def LISTA_DAO : String := "0x1adB950d8bB3dA4bE104211D5AB038628e477fE6"

/-- slisBNB token contract address. -/
def SLIS_BNB : String := "0xB0b84D294e0C75A6abe60171b70edEb2EFd14A1B"

/-- Results the external collaborators return during one stake run; requests is
the list of withdrawal-request statuses the contract reports, in order: for each
request its claimable flag and its amount. -/
structure StakeEnv where
  slisBalance : Nat
  allowance : Nat
  approveHash : String
  writeHash : String
  requests : List (Bool × Nat)

/-- Withdraw-amount selection: without an amount the whole slisBNB balance is read;
with an amount it is parsed with parseEther (an unparsable amount models the viem
throw). -/
def withdrawAmount (env : StakeEnv) (amount : Option String) :
    Except String Nat × List Ev :=
  if strFalsy amount then
    (.ok env.slisBalance, [Ev.readBalanceOf SLIS_BNB])
  else
    match parseEther (amount.getD "") with
    | some v => (.ok v, [])
    | none => (.error "Number is not a valid decimal number.", [])

/-- Embeds StakeAction.doWithdraw: amount selection, zero-amount rejection, live
allowance read with a single full-amount approval (confirmed before proceeding)
exactly when the allowance is insufficient, then the simulate-write-wait sequence
of the withdraw request and a final balance read. -/
def doWithdraw (env : StakeEnv) (amount : Option String) :
    Except String String × List Ev :=
  match withdrawAmount env amount with
  | (.error e, evs) => (.error e, evs)
  | (.ok amt, evs) =>
    if amt = 0 then (.error "No slisBNB tokens available to withdraw", evs)
    else
      let evs := evs ++ [Ev.checkAllowance SLIS_BNB LISTA_DAO] ++
        (if env.allowance < amt then
          [Ev.approveERC20 SLIS_BNB LISTA_DAO amt, Ev.waitForReceipt env.approveHash]
        else []) ++
        [Ev.simulate "requestWithdraw", Ev.writeContract "requestWithdraw" 0,
         Ev.waitForReceipt env.writeHash, Ev.readBalanceOf SLIS_BNB]
      (.ok "Successfully requested withdrawal.", evs)

/-- The claim loop of doClaim over the withdrawal-request statuses starting at the
given index: each request status is read in order; a claimable request is claimed
(simulate, claim write, receipt wait) and the loop continues; the first
non-claimable request stops the loop after its own status read. Returns the events,
the total claimed and the number of claims. -/
def claimLoop (env : StakeEnv) : List (Bool × Nat) → Nat → List Ev × Nat × Nat
  | [], _ => ([], 0, 0)
  | (claimable, amt) :: rest, idx =>
    if claimable then
      let (evs, total, count) := claimLoop env rest (idx + 1)
      ([Ev.readRequestStatus idx, Ev.simulate "claimWithdraw", Ev.claimWithdraw idx,
        Ev.waitForReceipt env.writeHash] ++ evs, amt + total, count + 1)
    else
      ([Ev.readRequestStatus idx], 0, 0)

/-- Embeds StakeAction.doClaim: the withdrawal-request list is read; when empty a
no-requests message is returned; otherwise the claim loop runs from index 0. -/
def doClaim (env : StakeEnv) : Except String String × List Ev :=
  let evs0 := [Ev.readWithdrawRequests]
  if env.requests.length = 0 then
    (.ok "No withdrawal requests found to claim.", evs0)
  else
    let (evs, total, count) := claimLoop env env.requests 0
    if count = 0 then
      (.ok "No claimable withdrawals found.", evs0 ++ evs)
    else
      (.ok ("Successfully claimed " ++ formatEther (total : Int) ++ " BNB from " ++
        Nat.repr count ++ " withdrawal request(s)."), evs0 ++ evs)

end StakeAction

/-! ## FaucetAction (src/actions/transfer.ts, faucet part) -/

namespace FaucetAction

/-- The fixed timeout of the faucet websocket wait, in milliseconds. -/
def FAUCET_TIMEOUT_MS : Nat := 15000

/-- What the faucet websocket delivers after the request message is sent:
either no hash-carrying message within the FAUCET_TIMEOUT_MS window, or a
transaction-details message carrying a hash, or an error event. -/
inductive FaucetWsScenario
  | noResponse
  | respondsWithHash (hash : String)
  | respondsError (err : String)

/-- Outcome of one faucet websocket flow: the settled promise value and how many
times the close operation was invoked on the socket. -/
structure FaucetRun where
  result : Except String String
  closeCalls : Nat

/-- The promise awaiting the transaction hash: on timeout the handler closes the
socket itself (one close) and rejects with the timeout error; a hash message clears
the timeout and resolves with the 0x-prefixed hash; an error event clears the
timeout and rejects. The second component counts the closes performed inside the
promise. -/
def awaitTxHash : FaucetWsScenario → Except String String × Nat
  | .noResponse => (.error "Faucet request timeout", 1)
  | .respondsWithHash h =>
    (.ok (if strStartsWith h "0x" then h else "0x" ++ h), 0)
  | .respondsError e => (.error e, 0)

/-- Embeds the websocket section of FaucetAction.faucet: the hash promise is
awaited inside a try whose finally block closes the socket once more on every
path, completion and rejection alike. -/
def faucetWsRun (sc : FaucetWsScenario) : FaucetRun :=
  let (res, closes) := awaitTxHash sc
  { result := res, closeCalls := closes + 1 }

end FaucetAction

/-! ## Handler parameter extraction

Each handler resolves its parameters from up to three candidate sources: the captures
of the action-specific regex match over the raw prompt text (taken here as an Option
of a capture record, the value of String.prototype.match), the model-generated JSON
content, and hardcoded defaults. -/

/-- Read a JSON field as JS does under a typeof-string check. -/
def jStrField : Option JVal → Option String
  | some (.jstr s) => some s
  | _ => none

/-- Chain resolution shared by the transfer and swap handlers: a string content
field is lower-cased, anything else defaults to bsc. -/
def contentChain (c : Option JVal) : String :=
  match c with
  | some (.jstr s) => strToLower s
  | _ => "bsc"

/-! ### Transfer handler -/

/-- The captures of the transfer regex (amount, token symbol, 0x recipient). -/
structure TransferMatch where
  amount : String
  token : String
  toAddress : String
deriving DecidableEq

/-- The model-generated JSON content of the transfer handler (absent keys are none). -/
structure TransferContent where
  chain : Option JVal
  token : Option JVal
  amount : Option JVal
  toAddress : Option JVal
deriving DecidableEq

/-- The token directly extracted from the prompt: the second capture when the
regex matched and the capture is truthy, upper-cased. -/
def transferDirectTokenMatch : Option TransferMatch → Option String
  | some m => if m.token = "" then none else some (strToUpper m.token)
  | none => none

/-- The effective content object: the parsed model output when parsing succeeded,
otherwise a fallback object rebuilt from the regex captures (amount, token with a
BNB default, recipient), or empty without a match. -/
def transferEffContent (rmatch : Option TransferMatch) :
    Option TransferContent → TransferContent
  | some c => c
  | none =>
    match rmatch with
    | some m =>
      { chain := none,
        token := some (.jstr (if m.token = "" then "BNB" else m.token)),
        amount := some (.jstr m.amount),
        toAddress := some (.jstr m.toAddress) }
    | none => { chain := none, token := none, amount := none, toAddress := none }

/-- Token resolution of the transfer handler, in priority order: the direct regex
capture; a truthy string JSON field; BNB when the prompt mentions it; BNB as the
final default (the last two branches coincide); a final safeguard keeps the token
nonempty. -/
def transferTokenOf (rmatch : Option TransferMatch) (containsBnb : Bool)
    (c : TransferContent) : String :=
  let token :=
    match transferDirectTokenMatch rmatch with
    | some t => t
    | none =>
      match c.token with
      | some (.jstr s) =>
        if s ≠ "" then s else if containsBnb then "BNB" else "BNB"
      | _ => if containsBnb then "BNB" else "BNB"
  if token = "" then "BNB" else token

/-- The regex fallback for the transfer amount: the first capture when truthy. -/
def transferAmountFallback : Option TransferMatch → String
  | some m => if m.amount ≠ "" then m.amount else ""
  | none => ""

/-- Amount resolution of the transfer handler: a truthy string-or-number JSON field
wins, the regex capture is only the fallback. -/
def transferAmountOf (rmatch : Option TransferMatch) (c : TransferContent) : String :=
  match c.amount with
  | some (.jstr s) => if s ≠ "" then s else transferAmountFallback rmatch
  | some (.jnum n) =>
    if n.num ≠ 0 then n.jsString else transferAmountFallback rmatch
  | _ => transferAmountFallback rmatch

/-- Recipient resolution of the transfer handler: any string JSON field (typeof
check only, even an empty string) wins, the regex capture is only the fallback. -/
def transferToAddressOf (rmatch : Option TransferMatch) (c : TransferContent) : String :=
  match c.toAddress with
  | some (.jstr s) => s
  | _ =>
    match rmatch with
    | some m => if m.toAddress ≠ "" then m.toAddress else ""
    | none => ""

/-- The full parameter record the transfer handler passes to its executor. -/
def transferResolveParams (rmatch : Option TransferMatch) (containsBnb : Bool)
    (parsed : Option TransferContent) : TransferAction.TransferParams :=
  let c := transferEffContent rmatch parsed
  { chain := contentChain c.chain,
    token := some (transferTokenOf rmatch containsBnb c),
    amount := some (transferAmountOf rmatch c),
    toAddress := transferToAddressOf rmatch c }

/-! ### Swap handler -/

/-- The captures of the swap regex (amount, from token, to token). -/
structure SwapMatch where
  amount : String
  fromToken : String
  toToken : String
deriving DecidableEq

/-- The model-generated JSON content of the swap handler. -/
structure SwapContent where
  chain : Option JVal
  inputToken : Option JVal
  outputToken : Option JVal
  amount : Option JVal
  slippage : Option JVal
deriving DecidableEq

/-- The direct captures of the swap regex, null when falsy: amount, upper-cased
from token, upper-cased to token. -/
def swapDirects (rmatch : Option SwapMatch) :
    Option String × Option String × Option String :=
  match rmatch with
  | some m =>
    (if m.amount = "" then none else some m.amount,
     if m.fromToken = "" then none else some (strToUpper m.fromToken),
     if m.toToken = "" then none else some (strToUpper m.toToken))
  | none => (none, none, none)

/-- From-token resolution of the swap handler: direct capture, then truthy string
JSON field, then BNB on mention, then BNB (the last two branches coincide). -/
def swapFromTokenOf (direct : Option String) (c : SwapContent)
    (mentions : String → Bool) : String :=
  match direct with
  | some t => t
  | none =>
    match c.inputToken with
    | some (.jstr s) =>
      if s ≠ "" then s else if mentions "BNB" then "BNB" else "BNB"
    | _ => if mentions "BNB" then "BNB" else "BNB"

/-- The default to-token: the first of USDC, USDT, BUSD that differs from the
from-token and is mentioned in the prompt, else the opposite of BNB. -/
def swapToTokenDefault (mentions : String → Bool) (fromToken : String) : String :=
  match ["USDC", "USDT", "BUSD"].find? (fun t => t ≠ fromToken ∧ mentions t) with
  | some t => t
  | none => if fromToken = "BNB" then "USDC" else "BNB"

/-- To-token resolution of the swap handler: direct capture, then truthy string
JSON field, then the mention-based default. -/
def swapToTokenOf (direct : Option String) (c : SwapContent)
    (mentions : String → Bool) (fromToken : String) : String :=
  match direct with
  | some t => t
  | none =>
    match c.outputToken with
    | some (.jstr s) =>
      if s ≠ "" then s else swapToTokenDefault mentions fromToken
    | _ => swapToTokenDefault mentions fromToken

/-- Amount resolution of the swap handler: direct capture, then truthy
string-or-number JSON field, then the 0.001 default. -/
def swapAmountOf (direct : Option String) (c : SwapContent) : String :=
  match direct with
  | some a => a
  | none =>
    match c.amount with
    | some (.jstr s) => if s ≠ "" then s else "0.001"
    | some (.jnum n) => if n.num ≠ 0 then n.jsString else "0.001"
    | _ => "0.001"

/-- Slippage resolution of the swap handler: a JSON number in (0, 1], else 0.05. -/
def swapSlippageOf (c : SwapContent) : JNum :=
  match c.slippage with
  | some (.jnum n) =>
    if JNum.le n { num := 0, exp := 0 } ∨ JNum.lt { num := 1, exp := 0 } n then
      { num := 5, exp := 2 }
    else n
  | _ => { num := 5, exp := 2 }

/-- An empty swap content (the parse-failure object). -/
def emptySwapContent : SwapContent :=
  { chain := none, inputToken := none, outputToken := none,
    amount := none, slippage := none }

/-- The full parameter record the swap handler passes to its executor. -/
def swapResolveParams (rmatch : Option SwapMatch) (mentions : String → Bool)
    (parsed : Option SwapContent) : SwapAction.SwapParams :=
  let c := parsed.getD emptySwapContent
  let dAmt := (swapDirects rmatch).1
  let dFrom := (swapDirects rmatch).2.1
  let dTo := (swapDirects rmatch).2.2
  let fromToken := swapFromTokenOf dFrom c mentions
  { chain := contentChain c.chain,
    fromToken := fromToken,
    toToken := swapToTokenOf dTo c mentions fromToken,
    amount := swapAmountOf dAmt c,
    slippage := some (swapSlippageOf c) }

/-! ### Bridge handler -/

/-- The captures of the bridge regex: amount always captured, token and
destination address optional captures. -/
structure BridgeMatch where
  amount : String
  fromToken : Option String
  toAddress : Option String
deriving DecidableEq

/-- The model-generated JSON content of the bridge handler; the non-amount fields
are read as strings with JS truthiness, so absent and null collapse to none while
an empty string keeps its falsiness. -/
structure BridgeContent where
  fromChain : Option String
  toChain : Option String
  fromToken : Option String
  toToken : Option String
  amount : Option JVal
  toAddress : Option String
deriving DecidableEq

/-- Embeds convertNullStringToUndefined: null stays none and an empty string
becomes none. -/
def convertNullStringToUndefined (s : String) : Option String :=
  if s = "" then none else some s

/-- The chain pair detected from direction keywords in the lower-cased prompt. -/
def bridgeDirectChains (promptLower : String) : Option String × Option String :=
  if containsStr promptLower "bsc to opbnb" ∨
     containsStr promptLower "binance to opbnb" ∨
     containsStr promptLower "l1 to l2" then
    (some "bsc", some "opBNB")
  else if containsStr promptLower "opbnb to bsc" ∨
          containsStr promptLower "opbnb to binance" ∨
          containsStr promptLower "l2 to l1" then
    (some "opBNB", some "bsc")
  else (none, none)

/-- The direct captures of the bridge regex, null when falsy. -/
def bridgeDirects (rmatch : Option BridgeMatch) :
    Option String × Option String × Option String :=
  match rmatch with
  | some m =>
    (if m.amount = "" then none else some m.amount,
     match m.fromToken with
     | some t => if t = "" then none else some t
     | none => none,
     match m.toAddress with
     | some a => if a = "" then none else some a
     | none => none)
  | none => (none, none, none)

/-- From-chain resolution of the bridge handler: keyword detection, then a truthy
content field, then bsc. -/
def bridgeFromChainOf (direct : Option String) (c : BridgeContent) : String :=
  match direct with
  | some ch => ch
  | none =>
    match c.fromChain with
    | some s => if s ≠ "" then s else "bsc"
    | none => "bsc"

/-- To-chain resolution of the bridge handler: keyword detection, then a truthy
content field, then the chain opposite the from-chain. -/
def bridgeToChainOf (direct : Option String) (c : BridgeContent)
    (fromChain : String) : String :=
  match direct with
  | some ch => ch
  | none =>
    match c.toChain with
    | some s => if s ≠ "" then s else (if fromChain = "bsc" then "opBNB" else "bsc")
    | none => if fromChain = "bsc" then "opBNB" else "bsc"

/-- From-token resolution of the bridge handler: the direct capture upper-cased,
else a truthy content field through convertNullStringToUndefined, else none
(native BNB). -/
def bridgeFromTokenOf (direct : Option String) (c : BridgeContent) : Option String :=
  match direct with
  | some t => some (strToUpper t)
  | none =>
    match c.fromToken with
    | some s => if s ≠ "" then convertNullStringToUndefined s else none
    | none => none

/-- To-token resolution of the bridge handler: a truthy content field through
convertNullStringToUndefined, else none. -/
def bridgeToTokenOf (c : BridgeContent) : Option String :=
  match c.toToken with
  | some s => if s ≠ "" then convertNullStringToUndefined s else none
  | none => none

/-- The content side of the destination-address resolution: a truthy content field
that starts with 0x. -/
def bridgeToAddressFromContent (c : BridgeContent) : Option String :=
  match c.toAddress with
  | some s =>
    if s ≠ "" then
      match convertNullStringToUndefined s with
      | some a => if strStartsWith a "0x" then some a else none
      | none => none
    else none
  | none => none

/-- Destination-address resolution of the bridge handler: the direct capture when
it starts with 0x, else the content field. -/
def bridgeToAddressOf (direct : Option String) (c : BridgeContent) : Option String :=
  match direct with
  | some a => if strStartsWith a "0x" then some a else bridgeToAddressFromContent c
  | none => bridgeToAddressFromContent c

/-- Amount resolution of the bridge handler: direct capture, then truthy
string-or-number content field, then the 0.001 default. -/
def bridgeAmountOf (direct : Option String) (c : BridgeContent) : String :=
  match direct with
  | some a => a
  | none =>
    match c.amount with
    | some (.jstr s) => if s ≠ "" then s else "0.001"
    | some (.jnum n) => if n.num ≠ 0 then n.jsString else "0.001"
    | _ => "0.001"

/-- The resolved bridge intent before the build step. -/
structure BridgeResolved where
  fromChain : String
  toChain : String
  fromToken : Option String
  toToken : Option String
  amount : String
  toAddress : Option String
deriving DecidableEq

/-- An empty bridge content (the parse-failure object). -/
def emptyBridgeContent : BridgeContent :=
  { fromChain := none, toChain := none, fromToken := none, toToken := none,
    amount := none, toAddress := none }

/-- The full resolution of the bridge handler from the prompt and the content. -/
def bridgeResolve (promptLower : String) (rmatch : Option BridgeMatch)
    (parsed : Option BridgeContent) : BridgeResolved :=
  let c := parsed.getD emptyBridgeContent
  let dChains := bridgeDirectChains promptLower
  let ds := bridgeDirects rmatch
  let fromChain := bridgeFromChainOf dChains.1 c
  { fromChain := fromChain,
    toChain := bridgeToChainOf dChains.2 c fromChain,
    fromToken := bridgeFromTokenOf ds.2.1 c,
    toToken := bridgeToTokenOf c,
    amount := bridgeAmountOf ds.1 c,
    toAddress := bridgeToAddressOf ds.2.2 c }

/-- The build step of the bridge handler: a truthy non-BNB from-token on a bsc
source without a truthy destination token is rejected before the executor runs;
otherwise the token fields are kept only when they are 0x addresses, everything
else becoming undefined. -/
def bridgeBuildParams (r : BridgeResolved) : Except String BridgeAction.BridgeParams :=
  if r.fromChain = "bsc" ∧ optTruthy r.fromToken ∧ r.fromToken ≠ some "BNB" ∧
     ¬ optTruthy r.toToken then
    .error "Missing destination token address"
  else
    .ok { fromChain := r.fromChain, toChain := r.toChain,
          fromToken :=
            match r.fromToken with
            | some t => if strStartsWith t "0x" then some t else none
            | none => none,
          toToken :=
            match r.toToken with
            | some t => if strStartsWith t "0x" then some t else none
            | none => none,
          amount := r.amount,
          toAddress := r.toAddress }

/-! ## Handler skeletons

The handler of each action is modelled as a function of the extraction inputs and
the collaborator results; the model invocation is awaited outside every try block,
so its rejection leaves the handler as a thrown error, while the executor call sits
inside a try whose catch rewrites the message and answers through the callback. -/

/-- One callback invocation: a success text, or a failure text together with the
machine-readable error value placed in the content object. -/
inductive CB
  | success (text : String)
  | failure (text : String) (error : String)
deriving DecidableEq

/-- The observable outcome of one handler run: a returned boolean with the callback
invocations made, or an exception propagated past the handler boundary. -/
inductive HandlerOutcome
  | returns (b : Bool) (cbs : List CB)
  | thrown (e : String)
deriving DecidableEq

/-- Extract between two markers: everything after the first occurrence of the
first marker up to the next occurrence of the second (the lazy capture of the
token-extraction regex of the transfer catch block). -/
def extractBetween (s pre post : String) : Option String :=
  match splitAtFirst s.toList pre.toList with
  | none => none
  | some (_, rest) =>
    match splitAtFirst rest post.toList with
    | none => none
    | some (mid, _) => some (String.mk mid)

/-- The catch-block rewrite of the transfer handler: LI.FI token-lookup failures
and chain-validation failures get dedicated texts, then the insufficient-funds and
underpriced substrings are rewritten; anything else is kept verbatim. -/
def transferErrorRewrite (p : TransferAction.TransferParams) (msg0 : String) : String :=
  let msg1 :=
    if containsStr msg0 "LI.FI SDK" then
      if containsStr msg0 "Request failed with status code 404" ∧
         containsStr msg0 "Could not find token" then
        let tokenValue :=
          (extractBetween msg0 "Could not find token " " on chain").getD (p.token.getD "")
        let base := "Could not find the token " ++ tokenValue ++ " on " ++ p.chain ++
          ". Please check the token symbol or address and try again."
        if tokenValue = "null" ∨ tokenValue = "undefined" ∨ tokenValue = "" then
          base ++ " For BNB transfers, please explicitly specify BNB as the token."
        else base
      else if containsStr msg0 "400 Bad Request" ∧ containsStr msg0 "chain must be" then
        "Chain validation error: " ++ p.chain ++
          " is not a valid chain for the LI.FI SDK. Please use bsc for BSC mainnet."
      else msg0
    else msg0
  if containsStr msg1 "insufficient funds" then
    "Insufficient funds for the transaction. Please check your balance and try again with a smaller amount."
  else if containsStr msg1 "transaction underpriced" then
    "Transaction underpriced. Please try again with a higher gas price."
  else msg1

/-- The extraction inputs and collaborator results of one transfer-handler run. -/
structure TransferHandlerEnv where
  source : String
  rmatch : Option TransferMatch
  containsBnb : Bool
  modelResult : Except String (Option TransferContent)
  chainEnv : TransferAction.TransferEnv

/-- Embeds the TRANSFER_BNB handler: source check first (an invalid source answers
through the callback and returns false); the model invocation is awaited outside
any try, so its rejection propagates; then parameter resolution and the executor
call inside the try, whose catch rewrites the message and returns false. -/
def transferHandler (h : TransferHandlerEnv) : HandlerOutcome :=
  if ¬ (h.source = "direct" ∨ h.source = "client_chat:user") then
    .returns false [CB.failure "I cannot do that for you." "Transfer not allowed"]
  else
    match h.modelResult with
    | .error e => .thrown e
    | .ok parsed =>
      let p := transferResolveParams h.rmatch h.containsBnb parsed
      match TransferAction.transfer h.chainEnv p with
      | (.ok resp, _) =>
        .returns true [CB.success ("Successfully transferred " ++ resp.amount ++
          " " ++ resp.token ++ " to " ++ resp.recipient ++
          " Transaction Hash: " ++ resp.txHash)]
      | (.error e, _) =>
        let msg := transferErrorRewrite p e
        .returns false [CB.failure ("Transfer failed: " ++ msg) msg]

/-- The catch-block rewrite of the swap handler. -/
def swapErrorRewrite (p : SwapAction.SwapParams) (msg : String) : String :=
  if containsStr msg "No routes found" then
    "No swap route found from " ++ p.fromToken ++ " to " ++ p.toToken ++
      ". Please check that both tokens exist and have liquidity."
  else if containsStr msg "insufficient funds" then
    "Insufficient funds for the swap. Please check your balance and try with a smaller amount."
  else if containsStr msg "high slippage" then
    "Swap failed due to high price impact. Try reducing the amount or using a different token pair."
  else msg

/-- The extraction inputs and collaborator results of one swap-handler run. -/
structure SwapHandlerEnv where
  rmatch : Option SwapMatch
  mentions : String → Bool
  modelResult : Except String (Option SwapContent)
  chainEnv : SwapAction.SwapEnv

/-- Embeds the SWAP_BNB handler: the model invocation is awaited outside any try,
so its rejection propagates; then parameter resolution and the executor call inside
the try, whose catch rewrites the message and returns false. -/
def swapHandler (h : SwapHandlerEnv) : HandlerOutcome :=
  match h.modelResult with
  | .error e => .thrown e
  | .ok parsed =>
    let p := swapResolveParams h.rmatch h.mentions parsed
    match SwapAction.swap h.chainEnv p with
    | (.ok resp, _) =>
      .returns true [CB.success ("Successfully swapped " ++ resp.amount ++ " " ++
        resp.fromToken ++ " to " ++ resp.toToken ++
        " Transaction Hash: " ++ resp.txHash)]
    | (.error e, _) =>
      let msg := swapErrorRewrite p e
      .returns false [CB.failure ("Swap failed: " ++ msg) msg]

/-- The catch-block rewrite of the bridge handler. -/
def bridgeErrorRewrite (msg : String) : String :=
  if containsStr msg "insufficient funds" then
    "Insufficient funds for the bridge operation. Please check your balance and try with a smaller amount."
  else if containsStr msg "user rejected" then
    "Transaction was rejected. Please try again if you want to proceed with the bridge operation."
  else if containsStr msg "token address on opBNB is required" then
    "When bridging ERC20 tokens from BSC to opBNB, you must specify the token address on opBNB."
  else if containsStr msg "Unsupported bridge direction" then
    "Only bridges between BSC and opBNB are supported. Valid directions are BSC to opBNB and opBNB to BSC."
  else msg

/-- The extraction inputs and collaborator results of one bridge-handler run. -/
structure BridgeHandlerEnv where
  promptLower : String
  rmatch : Option BridgeMatch
  walletInfoResult : Except String Unit
  modelResult : Except String (Option BridgeContent)
  chainEnv : BridgeAction.BridgeEnv

/-- Embeds the BRIDGE_BNB handler: a wallet-info failure is caught and answers
through the callback returning false; the model invocation is awaited outside any
try, so its rejection propagates; then resolution, the build step (whose rejection
answers through the callback and returns false) and the executor call inside the
try, whose catch rewrites the message and returns false. -/
def bridgeHandler (h : BridgeHandlerEnv) : HandlerOutcome :=
  match h.walletInfoResult with
  | .error e => .returns false [CB.failure ("Unable to access wallet: " ++ e) e]
  | .ok _ =>
    match h.modelResult with
    | .error e => .thrown e
    | .ok parsed =>
      let r := bridgeResolve h.promptLower h.rmatch parsed
      match bridgeBuildParams r with
      | .error _ =>
        .returns false [CB.failure
          "Cannot bridge ERC20 token from BSC to opBNB without destination token address. Please provide the token address on opBNB."
          "Missing destination token address"]
      | .ok p =>
        match BridgeAction.bridge h.chainEnv p with
        | (.ok resp, _) =>
          .returns true [CB.success ("Successfully bridged " ++ resp.amount ++ " " ++
            resp.fromToken ++ " from " ++ resp.fromChain ++ " to " ++ resp.toChain ++
            " Transaction Hash: " ++ resp.txHash)]
        | (.error e, _) =>
          let msg := bridgeErrorRewrite e
          .returns false [CB.failure ("Bridge failed: " ++ msg) msg]

/-! ## Observation helpers used by the theorems -/

/-- The claimed index of a claim-write event. -/
def claimIdx? : Ev → Option Nat
  | .claimWithdraw i => some i
  | _ => none

/-- The read index of a request-status read event. -/
def statusIdx? : Ev → Option Nat
  | .readRequestStatus i => some i
  | _ => none

/-- The approval events of a trace. -/
def approvals (evs : List Ev) : List Ev :=
  evs.filter (fun e =>
    match e with
    | .approveERC20 _ _ _ => true
    | _ => false)

/-! ## Concrete runs used by the handler-level theorems -/

/-- A transfer-handler run whose model invocation rejects. -/
def c9ThrowEnv : TransferHandlerEnv :=
  { source := "direct", rmatch := none, containsBnb := false,
    modelResult := .error "model request failed",
    chainEnv := { chains := [], nativeSymbol := "BNB",
                  formatAddress := fun s => .ok s, balance := 0,
                  tokenAddressOf := fun _ _ => .error "x", decimalsOf := fun _ => 18,
                  tokenBalanceOf := fun _ => 0, transferResult := .ok "0xh",
                  transferERC20Result := .ok "0xh", waitReceiptResult := .ok () } }

/-- A transfer-handler run whose model invocation resolves but whose executor
fails on the chain check. -/
def c9TEnv : TransferHandlerEnv :=
  { source := "direct", rmatch := none, containsBnb := false,
    modelResult := .ok none,
    chainEnv := { chains := [], nativeSymbol := "BNB",
                  formatAddress := fun s => .ok s, balance := 0,
                  tokenAddressOf := fun _ _ => .error "x", decimalsOf := fun _ => 18,
                  tokenBalanceOf := fun _ => 0, transferResult := .ok "0xh",
                  transferERC20Result := .ok "0xh", waitReceiptResult := .ok () } }

/-- A swap-handler run whose model invocation resolves but whose executor fails. -/
def c9SEnv : SwapHandlerEnv :=
  { rmatch := none, mentions := fun _ => false, modelResult := .ok none,
    chainEnv := { tokenAddressOf := fun _ _ => .error "x", routesCount := 0,
                  execStatus := some "DONE", execTxHash := "0xh" } }

/-- A bridge-handler run whose model invocation resolves but whose executor fails. -/
def c9BEnv : BridgeHandlerEnv :=
  { promptLower := "", rmatch := none, walletInfoResult := .ok (),
    modelResult := .ok none,
    chainEnv := { walletAddress := "0xw", decimalsOf := fun _ => 18,
                  allowance := 0, delegationFee := 0,
                  approveHash := "0xa", writeHash := "0xb" } }

/-- A resolved bridge intent naming the non-BNB symbol USDT as from-token on a
bsc source without a destination token. -/
def c10R : BridgeResolved :=
  { fromChain := "bsc", toChain := "opBNB", fromToken := some "USDT",
    toToken := none, amount := "0.5", toAddress := none }

/-- Collaborator results for a concrete opBNB-to-bsc bridge executor run. -/
def c10Env : BridgeAction.BridgeEnv :=
  { walletAddress := "0xme", decimalsOf := fun _ => 18, allowance := 0,
    delegationFee := 7, approveHash := "0xa", writeHash := "0xw" }

/-! ## Theorems -/

/-- Helper: the transfer validator on a nonempty recipient with a successful
address formatting. -/
theorem TransferAction.validate_ok (env : TransferAction.TransferEnv)
    (p : TransferAction.TransferParams) (a : String)
    (haddr : p.toAddress ≠ "") (hfmt : env.formatAddress p.toAddress = .ok a) :
    TransferAction.validateAndNormalizeParams env p = .ok { p with toAddress := a } := by
  simp [TransferAction.validateAndNormalizeParams, haddr, hfmt]

/-- C8 (counterexample): in the scenario where the websocket never delivers a hash
within the timeout window, the close operation is invoked twice — once by the
timeout handler, once by the finally block — and not exactly once as the claim
states. -/
theorem c8_counterexample :
    (FaucetAction.faucetWsRun FaucetAction.FaucetWsScenario.noResponse).closeCalls = 2 ∧
    (2 : Nat) ≠ 1 := by
  exact ⟨rfl, by decide⟩

/-- C8 (amended): a faucet request whose websocket never responds within the fixed
15000 ms window rejects with the timeout error, and the close operation is invoked
exactly twice (once by the timeout handler, once by the finally block). -/
theorem c8_theorem :
    FaucetAction.FAUCET_TIMEOUT_MS = 15000 ∧
    (FaucetAction.faucetWsRun FaucetAction.FaucetWsScenario.noResponse).result =
      .error "Faucet request timeout" ∧
    (FaucetAction.faucetWsRun FaucetAction.FaucetWsScenario.noResponse).closeCalls = 2 := by
  exact ⟨rfl, rfl, rfl⟩

/-- C4: for a native transfer with the amount omitted, the resolved transfer amount
is the account balance minus the fixed gas reserve of 21000 gas times 3 gwei
(63000000000000 wei, i.e. 0.000063 BNB); in particular, at a balance of exactly
5.0 BNB the resolved transfer amount is exactly 4.999937. -/
theorem c4_theorem (env : TransferAction.TransferEnv) (p : TransferAction.TransferParams)
    (a h : String)
    (hchain : env.chains.contains p.chain = true)
    (haddr : p.toAddress ≠ "")
    (hfmt : env.formatAddress p.toAddress = .ok a)
    (hsym : env.nativeSymbol = "BNB")
    (htok : p.token = none)
    (hamt : p.amount = none)
    (hh : env.transferResult = .ok h) (hh1 : h ≠ "") (hh2 : h ≠ "0x") :
    (TransferAction.transfer env p).1 = .ok
      { chain := p.chain, txHash := h, recipient := a,
        amount := formatEther (env.balance - 63000000000000), token := "BNB" } ∧
    (env.balance = 5000000000000000000 →
      (TransferAction.transfer env p).1 = .ok
        { chain := p.chain, txHash := h, recipient := a,
          amount := "4.999937", token := "BNB" }) := by
  have hmain : (TransferAction.transfer env p).1 = .ok
      { chain := p.chain, txHash := h, recipient := a,
        amount := formatEther (env.balance - 63000000000000), token := "BNB" } := by
    simp only [TransferAction.transfer, hchain, TransferAction.validate_ok env p a haddr hfmt]
    simp only [hsym, htok, hamt]
    simp only [TransferAction.nativeRun, TransferAction.nativeValue, strFalsy]
    norm_num
    simp only [hh, TransferAction.finish, hh1, hh2]
    simp only [false_or, if_false]
    cases env.waitReceiptResult <;>
      norm_num [TransferAction.DEFAULT_GAS_PRICE, formatEther]
  refine ⟨hmain, fun hbal => ?_⟩
  rw [hmain, hbal]
  norm_num
  decide

/-- C4 witness: the theorem applied at a concrete run with balance 5.0 BNB. -/
theorem c4_witness :
    (TransferAction.transfer
      { chains := ["bsc"], nativeSymbol := "BNB",
        formatAddress := fun s => .ok s, balance := 5000000000000000000,
        tokenAddressOf := fun _ _ => .error "unavailable",
        decimalsOf := fun _ => 18, tokenBalanceOf := fun _ => 0,
        transferResult := .ok "0xabc", transferERC20Result := .ok "0xabc",
        waitReceiptResult := .ok () }
      { chain := "bsc", token := none, amount := none,
        toAddress := "0x1234567890123456789012345678901234567890" }).1 = .ok
      { chain := "bsc", txHash := "0xabc",
        recipient := "0x1234567890123456789012345678901234567890",
        amount := "4.999937", token := "BNB" } :=
  (c4_theorem _ _ "0x1234567890123456789012345678901234567890" "0xabc"
    (by decide) (by decide) rfl rfl rfl rfl rfl (by decide) (by decide)).2 rfl

/-- C7: a transfer whose submission succeeds with a hash but whose receipt wait
fails still returns the response carrying the hash: the confirmation error is
caught and neither raised nor allowed to discard the hash. -/
theorem c7_theorem (env : TransferAction.TransferEnv) (p : TransferAction.TransferParams)
    (a s h e : String) (v : Nat)
    (hchain : env.chains.contains p.chain = true)
    (haddr : p.toAddress ≠ "")
    (hfmt : env.formatAddress p.toAddress = .ok a)
    (hsym : env.nativeSymbol = "BNB")
    (htok : p.token = none)
    (hamt : p.amount = some s) (hs : s ≠ "")
    (hparse : parseEther s = some v)
    (hh : env.transferResult = .ok h) (hh1 : h ≠ "") (hh2 : h ≠ "0x")
    (hwait : env.waitReceiptResult = .error e) :
    (TransferAction.transfer env p) = (.ok
      { chain := p.chain, txHash := h, recipient := a,
        amount := formatUnits (v : Int) 18, token := "BNB" },
      [Ev.switchChain p.chain, Ev.getBalance, Ev.transferNative a (v : Int),
       Ev.waitForReceipt h]) := by
  simp only [TransferAction.transfer, hchain, TransferAction.validate_ok env p a haddr hfmt]
  simp only [hsym, htok, hamt]
  simp only [TransferAction.nativeRun, TransferAction.nativeValue, strFalsy, hs, hparse]
  norm_num [hs]
  simp only [hh, TransferAction.finish, hh1, hh2, hwait]
  rw [hparse]
  norm_num [hh1, hh2]

/-- C7 witness: a concrete run whose receipt wait fails with a node timeout and
which still returns the transaction hash. -/
theorem c7_witness :
    (TransferAction.transfer
      { chains := ["bsc"], nativeSymbol := "BNB",
        formatAddress := fun s => .ok s, balance := 0,
        tokenAddressOf := fun _ _ => .error "unavailable",
        decimalsOf := fun _ => 18, tokenBalanceOf := fun _ => 0,
        transferResult := .ok "0xdeadbeef", transferERC20Result := .ok "0xdeadbeef",
        waitReceiptResult := .error "node timeout" }
      { chain := "bsc", token := none, amount := some "1",
        toAddress := "0x1234567890123456789012345678901234567890" }) = (.ok
      { chain := "bsc", txHash := "0xdeadbeef",
        recipient := "0x1234567890123456789012345678901234567890",
        amount := "1", token := "BNB" },
      [Ev.switchChain "bsc", Ev.getBalance,
       Ev.transferNative "0x1234567890123456789012345678901234567890"
         (1000000000000000000 : Int),
       Ev.waitForReceipt "0xdeadbeef"]) := by
  have := c7_theorem
    { chains := ["bsc"], nativeSymbol := "BNB",
      formatAddress := fun s => .ok s, balance := 0,
      tokenAddressOf := fun _ _ => .error "unavailable",
      decimalsOf := fun _ => 18, tokenBalanceOf := fun _ => 0,
      transferResult := .ok "0xdeadbeef", transferERC20Result := .ok "0xdeadbeef",
      waitReceiptResult := .error "node timeout" }
    { chain := "bsc", token := none, amount := some "1",
      toAddress := "0x1234567890123456789012345678901234567890" }
    "0x1234567890123456789012345678901234567890" "1" "0xdeadbeef" "node timeout"
    1000000000000000000
    (by decide) (by decide) rfl rfl rfl rfl (by decide) (by decide) rfl
    (by decide) (by decide) rfl
  rw [this]
  rfl

/-- C6: a bridge request whose chain pair (after the bsc default for an absent
source chain) is not bsc to opBNB and not opBNB to bsc — the same-chain case
included — fails with the unsupported-direction validation error, and the trace of
chain calls is empty: no switch, read, simulation or write happens before the
failure. -/
theorem c6_theorem (env : BridgeAction.BridgeEnv) (p : BridgeAction.BridgeParams)
    (htc : p.toChain ≠ "")
    (hdir : ¬ (((if p.fromChain = "" then "bsc" else p.fromChain) = "bsc" ∧ p.toChain = "opBNB") ∨
               ((if p.fromChain = "" then "bsc" else p.fromChain) = "opBNB" ∧ p.toChain = "bsc"))) :
    BridgeAction.bridge env p =
      (.error "Unsupported bridge direction. Currently only supporting: BSC ↔ opBNB", []) := by
  by_cases hfc : p.fromChain = ""
  · have h1 : p.toChain ≠ "opBNB" := fun h => hdir (by simp [hfc, h])
    simp [BridgeAction.bridge, BridgeAction.validateAndNormalizeParams, hfc, htc, h1]
  · have h1 : ¬ (p.fromChain = "bsc" ∧ p.toChain = "opBNB") := fun h => hdir (by simp [hfc, h.1, h.2])
    have h2 : ¬ (p.fromChain = "opBNB" ∧ p.toChain = "bsc") := fun h => hdir (by simp [hfc, h.1, h.2])
    simp [BridgeAction.bridge, BridgeAction.validateAndNormalizeParams, hfc, htc, h1, h2]

/-- C6 witness: the same-chain request bsc to bsc fails with the
unsupported-direction error and makes zero chain calls. -/
theorem c6_witness :
    BridgeAction.bridge
      { walletAddress := "0xme", decimalsOf := fun _ => 18, allowance := 0,
        delegationFee := 0, approveHash := "0xa", writeHash := "0xw" }
      { fromChain := "bsc", toChain := "bsc", fromToken := none, toToken := none,
        amount := "1", toAddress := none } =
      (.error "Unsupported bridge direction. Currently only supporting: BSC ↔ opBNB", []) :=
  c6_theorem _ _ (by decide) (by decide)

/-- C2: for the ERC20 bridge deposit (BSC to opBNB, self bridge) and the slisBNB
stake withdrawal, the full collaborator trace shows the allowance discipline:
the live allowance is read, exactly one approval is submitted and confirmed before
the main simulate-and-write when the allowance is below the required amount, and
zero approvals are submitted when it is not; the approval count of the trace is
one or zero accordingly. -/
theorem c2_theorem (env : BridgeAction.BridgeEnv) (senv : StakeAction.StakeEnv)
    (tok tt amtStr : String) (amt : Nat)
    (htok0x : strStartsWith tok "0x" = true) (htokne : tok ≠ "")
    (htokbnb : strToUpper tok ≠ "BNB")
    (htt0x : strStartsWith tt "0x" = true) (httne : tt ≠ "")
    (hamtne : amtStr ≠ "") (hpos : jsParseFloatPos amtStr = true)
    (hparse : parseUnits amtStr (env.decimalsOf tok) = some amt)
    (hbal : senv.slisBalance ≠ 0) :
    (BridgeAction.bridge env
      { fromChain := "bsc", toChain := "opBNB", fromToken := some tok,
        toToken := some tt, amount := amtStr, toAddress := none } =
      (.ok { fromChain := "bsc", toChain := "opBNB", fromToken := tok, toToken := tt,
             amount := amtStr, txHash := env.writeHash, recipient := env.walletAddress },
       [Ev.switchChain "bsc", Ev.readDecimals tok,
        Ev.checkAllowance tok BridgeAction.L1_BRIDGE_ADDRESS] ++
       (if env.allowance < amt then
         [Ev.approveERC20 tok BridgeAction.L1_BRIDGE_ADDRESS amt,
          Ev.waitForReceipt env.approveHash]
        else []) ++
       [Ev.simulate "depositERC20", Ev.writeContract "depositERC20" 0])) ∧
    (StakeAction.doWithdraw senv none =
      (.ok "Successfully requested withdrawal.",
       [Ev.readBalanceOf StakeAction.SLIS_BNB,
        Ev.checkAllowance StakeAction.SLIS_BNB StakeAction.LISTA_DAO] ++
       (if senv.allowance < senv.slisBalance then
         [Ev.approveERC20 StakeAction.SLIS_BNB StakeAction.LISTA_DAO senv.slisBalance,
          Ev.waitForReceipt senv.approveHash]
        else []) ++
       [Ev.simulate "requestWithdraw", Ev.writeContract "requestWithdraw" 0,
        Ev.waitForReceipt senv.writeHash, Ev.readBalanceOf StakeAction.SLIS_BNB])) ∧
    (approvals (BridgeAction.bridge env
      { fromChain := "bsc", toChain := "opBNB", fromToken := some tok,
        toToken := some tt, amount := amtStr, toAddress := none }).2).length =
      (if env.allowance < amt then 1 else 0) ∧
    (approvals (StakeAction.doWithdraw senv none).2).length =
      (if senv.allowance < senv.slisBalance then 1 else 0) := by
  have hB : BridgeAction.bridge env
      { fromChain := "bsc", toChain := "opBNB", fromToken := some tok,
        toToken := some tt, amount := amtStr, toAddress := none } =
      (.ok { fromChain := "bsc", toChain := "opBNB", fromToken := tok, toToken := tt,
             amount := amtStr, txHash := env.writeHash, recipient := env.walletAddress },
       [Ev.switchChain "bsc", Ev.readDecimals tok,
        Ev.checkAllowance tok BridgeAction.L1_BRIDGE_ADDRESS] ++
       (if env.allowance < amt then
         [Ev.approveERC20 tok BridgeAction.L1_BRIDGE_ADDRESS amt,
          Ev.waitForReceipt env.approveHash]
        else []) ++
       [Ev.simulate "depositERC20", Ev.writeContract "depositERC20" 0]) := by
    simp [BridgeAction.bridge, BridgeAction.validateAndNormalizeParams,
      BridgeAction.erc20DestCheck, BridgeAction.fromTokenIsBnb,
      BridgeAction.isNativeTokenBridge, BridgeAction.bridgeAmount,
      BridgeAction.ensureAllowance, optTruthy,
      htokne, httne, hamtne, hpos, htt0x, htokbnb, hparse]
  have hS : StakeAction.doWithdraw senv none =
      (.ok "Successfully requested withdrawal.",
       [Ev.readBalanceOf StakeAction.SLIS_BNB,
        Ev.checkAllowance StakeAction.SLIS_BNB StakeAction.LISTA_DAO] ++
       (if senv.allowance < senv.slisBalance then
         [Ev.approveERC20 StakeAction.SLIS_BNB StakeAction.LISTA_DAO senv.slisBalance,
          Ev.waitForReceipt senv.approveHash]
        else []) ++
       [Ev.simulate "requestWithdraw", Ev.writeContract "requestWithdraw" 0,
        Ev.waitForReceipt senv.writeHash, Ev.readBalanceOf StakeAction.SLIS_BNB]) := by
    simp [StakeAction.doWithdraw, StakeAction.withdrawAmount, strFalsy, hbal]
  refine ⟨hB, hS, ?_, ?_⟩
  · rw [hB]
    by_cases hc : env.allowance < amt <;> simp [hc, approvals]
  · rw [hS]
    by_cases hc : senv.allowance < senv.slisBalance <;> simp [hc, approvals]

/-- C2 witness: a concrete insufficient-allowance bridge deposit (one approval) and
a concrete sufficient-allowance stake withdrawal (zero approvals). -/
theorem c2_witness :
    (BridgeAction.bridge
      { walletAddress := "0xme", decimalsOf := fun _ => 18, allowance := 0,
        delegationFee := 0, approveHash := "0xa", writeHash := "0xw" }
      { fromChain := "bsc", toChain := "opBNB",
        fromToken := some "0x55d398326f99059fF775485246999027B3197955",
        toToken := some "0x9e5AAC1Ba1a2e6aEd6b32689DFcF62A509Ca96f3",
        amount := "1", toAddress := none } =
      (.ok { fromChain := "bsc", toChain := "opBNB",
             fromToken := "0x55d398326f99059fF775485246999027B3197955",
             toToken := "0x9e5AAC1Ba1a2e6aEd6b32689DFcF62A509Ca96f3",
             amount := "1", txHash := "0xw", recipient := "0xme" },
       [Ev.switchChain "bsc",
        Ev.readDecimals "0x55d398326f99059fF775485246999027B3197955",
        Ev.checkAllowance "0x55d398326f99059fF775485246999027B3197955"
          BridgeAction.L1_BRIDGE_ADDRESS] ++
       (if (0 : Nat) < 1000000000000000000 then
         [Ev.approveERC20 "0x55d398326f99059fF775485246999027B3197955"
            BridgeAction.L1_BRIDGE_ADDRESS 1000000000000000000,
          Ev.waitForReceipt "0xa"]
        else []) ++
       [Ev.simulate "depositERC20", Ev.writeContract "depositERC20" 0])) ∧
    (StakeAction.doWithdraw
      { slisBalance := 5, allowance := 10, approveHash := "0xa", writeHash := "0xw",
        requests := [] } none =
      (.ok "Successfully requested withdrawal.",
       [Ev.readBalanceOf StakeAction.SLIS_BNB,
        Ev.checkAllowance StakeAction.SLIS_BNB StakeAction.LISTA_DAO] ++
       (if (10 : Nat) < 5 then
         [Ev.approveERC20 StakeAction.SLIS_BNB StakeAction.LISTA_DAO 5,
          Ev.waitForReceipt "0xa"]
        else []) ++
       [Ev.simulate "requestWithdraw", Ev.writeContract "requestWithdraw" 0,
        Ev.waitForReceipt "0xw", Ev.readBalanceOf StakeAction.SLIS_BNB])) := by
  have h := c2_theorem
    { walletAddress := "0xme", decimalsOf := fun _ => 18, allowance := 0,
      delegationFee := 0, approveHash := "0xa", writeHash := "0xw" }
    { slisBalance := 5, allowance := 10, approveHash := "0xa", writeHash := "0xw",
      requests := [] }
    "0x55d398326f99059fF775485246999027B3197955"
    "0x9e5AAC1Ba1a2e6aEd6b32689DFcF62A509Ca96f3" "1" 1000000000000000000
    (by decide) (by decide) (by decide) (by decide) (by decide) (by decide)
    (by decide) (by decide) (by decide)
  exact ⟨h.1, h.2.1⟩

/-- Helper for C5: the claim loop over a fully claimable prefix followed by a
non-claimable entry claims exactly the prefix indices in order and reads no status
beyond the first non-claimable index. -/
theorem claimLoop_prefix (env : StakeAction.StakeEnv)
    (l : List (Bool × Nat)) (a : Nat) (rest : List (Bool × Nat)) (idx : Nat)
    (hl : ∀ x ∈ l, x.1 = true) :
    ((StakeAction.claimLoop env (l ++ (false, a) :: rest) idx).1.filterMap claimIdx? =
      (List.range l.length).map (fun i => idx + i)) ∧
    (∀ i, Ev.readRequestStatus i ∈ (StakeAction.claimLoop env (l ++ (false, a) :: rest) idx).1 →
      i ≤ idx + l.length) := by
  induction l generalizing idx with
  | nil =>
    simp [StakeAction.claimLoop, claimIdx?]
  | cons hd tl ih =>
    obtain ⟨c, amt⟩ := hd
    have hc : c = true := hl (c, amt) (by simp)
    subst hc
    have ihx := ih (idx + 1) (fun x hx => hl x (by simp [hx]))
    constructor
    · simp only [List.cons_append, StakeAction.claimLoop, if_pos]
      simp only [List.filterMap_cons, claimIdx?, List.filterMap_append, List.append_eq] at ihx ⊢
      rw [ihx.1]
      have hfn : (fun i => idx + 1 + i) = (fun i => idx + (i + 1)) := by
        funext i; omega
      simp [List.range_succ_eq_map, List.map_map, hfn, Function.comp]
    · intro i hi
      simp only [List.cons_append, StakeAction.claimLoop, if_pos, List.append_eq,
        List.nil_append, List.mem_cons, List.mem_append] at hi
      simp only [List.length_cons]
      rcases hi with h1 | h1 | h1 | h1 | h1
      · cases h1; omega
      · simp at h1
      · simp at h1
      · simp at h1
      · have := ihx.2 i (by simpa [List.append_eq] using h1)
        omega

/-- C5: when the pending withdrawal requests are a claimable prefix of length k
followed by a non-claimable entry at index k, the claim operation claims exactly
indices 0 through k-1 in order, and the claimability status it reads never goes
past index k. -/
theorem c5_theorem (senv : StakeAction.StakeEnv)
    (claimable : List (Bool × Nat)) (a : Nat) (rest : List (Bool × Nat))
    (hl : ∀ x ∈ claimable, x.1 = true)
    (hreq : senv.requests = claimable ++ (false, a) :: rest) :
    ((StakeAction.doClaim senv).2.filterMap claimIdx? = List.range claimable.length) ∧
    (∀ i, Ev.readRequestStatus i ∈ (StakeAction.doClaim senv).2 → i ≤ claimable.length) := by
  have h := claimLoop_prefix senv claimable a rest 0 hl
  have hne : ¬ senv.requests.length = 0 := by rw [hreq]; simp
  have htrace : (StakeAction.doClaim senv).2 =
      Ev.readWithdrawRequests :: (StakeAction.claimLoop senv senv.requests 0).1 := by
    simp only [StakeAction.doClaim, hne, if_neg, if_false]
    by_cases hc : (StakeAction.claimLoop senv senv.requests 0).2.2 = 0 <;> simp [hc]
  rw [htrace, hreq]
  constructor
  · simp only [List.filterMap_cons, claimIdx?]
    rw [h.1]
    simp
  · intro i hi
    simp only [List.mem_cons] at hi
    rcases hi with h1 | h1
    · simp at h1
    · have := h.2 i h1
      omega

/-- C5 witness: two claimable requests followed by a non-claimable one give claims
of exactly indices 0 and 1 and no status read beyond index 2. -/
theorem c5_witness :
    ((StakeAction.doClaim
      { slisBalance := 0, allowance := 0, approveHash := "0xa", writeHash := "0xw",
        requests := [(true, 3), (true, 4), (false, 5)] }).2.filterMap claimIdx? =
      List.range 2) ∧
    (∀ i, Ev.readRequestStatus i ∈ (StakeAction.doClaim
      { slisBalance := 0, allowance := 0, approveHash := "0xa", writeHash := "0xw",
        requests := [(true, 3), (true, 4), (false, 5)] }).2 → i ≤ 2) :=
  c5_theorem _ [(true, 3), (true, 4)] 5 [] (by decide) rfl

/-- Helper for C3: the native-value step never calls the token directory. -/
theorem nativeValue_no_lookup (env : TransferAction.TransferEnv)
    (am : Option String) (ch sym : String) :
    Ev.getTokenAddress ch sym ∉ (TransferAction.nativeValue env am).2 := by
  simp only [TransferAction.nativeValue]
  split
  · simp
  · split <;> simp

/-- Helper for C3: the native transfer branch never calls the token directory. -/
theorem nativeRun_no_lookup (env : TransferAction.TransferEnv)
    (q : TransferAction.TransferParams) (t ch sym : String) :
    Ev.getTokenAddress ch sym ∉ (TransferAction.nativeRun env q t).2 := by
  have h := nativeValue_no_lookup env q.amount ch sym
  rcases hnv : TransferAction.nativeValue env q.amount with ⟨res, evs⟩
  rw [hnv] at h
  simp only [TransferAction.nativeRun, hnv]
  rcases res with e | v
  · simpa using h
  · rcases env.transferResult with e | hsh <;> simp_all

/-- Helper for C3: the finish step adds no token-directory call. -/
theorem finish_no_lookup (env : TransferAction.TransferEnv)
    (r : TransferAction.TransferResponse) (evs : List Ev) (ch sym : String)
    (h : Ev.getTokenAddress ch sym ∉ evs) :
    Ev.getTokenAddress ch sym ∉ (TransferAction.finish env r evs).2 := by
  simp only [TransferAction.finish]
  split
  · simpa using h
  · rcases env.waitReceiptResult with e | u <;> simp_all

/-- Helper: the transfer validator only rewrites the recipient. -/
theorem validate_ok_fields (env : TransferAction.TransferEnv)
    (p q : TransferAction.TransferParams)
    (h : TransferAction.validateAndNormalizeParams env p = .ok q) :
    q.token = p.token ∧ q.amount = p.amount ∧ q.chain = p.chain := by
  simp only [TransferAction.validateAndNormalizeParams] at h
  split at h
  · simp at h
  · split at h
    · injection h with h2
      subst h2
      exact ⟨rfl, rfl, rfl⟩
    · simp at h

/-- Helper for C3: a transfer of the native token (token absent or the BNB symbol
in either case) never issues a token-directory lookup, on every control path. -/
theorem transfer_native_no_lookup (env : TransferAction.TransferEnv)
    (p : TransferAction.TransferParams)
    (htok : p.token = none ∨ p.token = some "BNB" ∨ p.token = some "bnb")
    (ch sym : String) :
    Ev.getTokenAddress ch sym ∉ (TransferAction.transfer env p).2 := by
  simp only [TransferAction.transfer]
  split
  · simp
  · rcases hv : TransferAction.validateAndNormalizeParams env p with e | q
    · simp [hv]
    · obtain ⟨hqt, _, _⟩ := validate_ok_fields env p q hv
      simp only [hv]
      generalize (if env.nativeSymbol = "" then "BNB" else env.nativeSymbol) = nat
      have hbranch : ∀ tk : String,
          Ev.getTokenAddress ch sym ∉
            (match TransferAction.nativeRun env q tk with
             | (.error e, evs) => ((.error e : Except String TransferAction.TransferResponse),
                 [Ev.switchChain q.chain, Ev.getBalance] ++ evs)
             | (.ok resp, evs) =>
                TransferAction.finish env resp ([Ev.switchChain q.chain, Ev.getBalance] ++ evs)).2 := by
        intro tk
        have h := nativeRun_no_lookup env q tk ch sym
        rcases hnr : TransferAction.nativeRun env q tk with ⟨res, evs⟩
        rw [hnr] at h
        rcases res with e | r
        · simpa using h
        · exact finish_no_lookup env r _ ch sym (by simp_all)
      have hbranch2 : ∀ tk : String,
          Ev.getTokenAddress ch sym ∉
            (match TransferAction.nativeRun env q tk with
             | (.error e, evs) => ((.error e : Except String TransferAction.TransferResponse),
                 [Ev.switchChain q.chain, Ev.getBalance] ++ evs)
             | (.ok resp, evs) =>
                ((.ok resp : Except String TransferAction.TransferResponse),
                 [Ev.switchChain q.chain, Ev.getBalance] ++ evs)).2 := by
        intro tk
        have h := nativeRun_no_lookup env q tk ch sym
        rcases hnr : TransferAction.nativeRun env q tk with ⟨res, evs⟩
        rw [hnr] at h
        rcases res with e | r <;> simp_all
      rcases htok with h0 | h0 | h0 <;> simp only [hqt, h0]
      · split
        · exact hbranch _
        · next hneg => exact absurd (Or.inr trivial) hneg
      · rw [if_neg (by decide : ¬("BNB" : String) = "")]
        by_cases hlow : strToLower "BNB" = strToLower nat
        · rw [if_pos hlow]
          split
          · exact hbranch _
          · next hneg => exact absurd (Or.inr rfl) hneg
        · rw [if_neg hlow]
          split
          · exact hbranch _
          · rw [if_pos (Or.inl rfl)]
            exact hbranch2 _
      · rw [if_neg (by decide : ¬("bnb" : String) = "")]
        by_cases hlow : strToLower "bnb" = strToLower nat
        · rw [if_pos hlow]
          split
          · exact hbranch _
          · next hneg => exact absurd (Or.inr rfl) hneg
        · rw [if_neg hlow]
          split
          · exact hbranch _
          · rw [if_pos (Or.inr rfl)]
            exact hbranch2 _

/-- Helper for C3: resolving a non-address swap token always issues exactly the
token-directory call, whatever the directory answers. -/
theorem resolveSwapToken_trace (env : SwapAction.SwapEnv) (ch tok : String)
    (h : strStartsWith tok "0x" = false) :
    (SwapAction.resolveSwapToken env ch tok).2 = [Ev.getTokenAddress ch tok] := by
  simp only [SwapAction.resolveSwapToken, h]
  norm_num
  split
  · split <;> rfl
  · rfl

/-- Helper for C3: resolving a non-address transfer token always configures the
SDK and issues the token-directory call, whatever the directory answers. -/
theorem resolveTokenAddr_trace (env : TransferAction.TransferEnv) (ch tok : String)
    (h : strStartsWith tok "0x" = false) :
    (TransferAction.resolveTokenAddr env ch tok).2 =
      [Ev.configureLiFiSdk ch, Ev.getTokenAddress ch tok] := by
  simp only [TransferAction.resolveTokenAddr, h]
  norm_num
  split
  · split <;> rfl
  · rfl

/-- Helper for C3: the finish step preserves trace membership. -/
theorem finish_mem (env : TransferAction.TransferEnv)
    (r : TransferAction.TransferResponse) (evs : List Ev) (x : Ev)
    (h : x ∈ evs) : x ∈ (TransferAction.finish env r evs).2 := by
  simp only [TransferAction.finish]
  split
  · simpa using h
  · rcases env.waitReceiptResult with e | u <;> simp_all

/-- Helper for C3: the ERC20 transfer branch on a non-address symbol issues the
token-directory lookup on every control path. -/
theorem erc20Run_lookup (env : TransferAction.TransferEnv)
    (q : TransferAction.TransferParams) (s : String)
    (h0x : strStartsWith s "0x" = false) :
    Ev.getTokenAddress q.chain s ∈ (TransferAction.erc20Run env q s).2 := by
  simp only [TransferAction.erc20Run]
  rcases hra : TransferAction.resolveTokenAddr env q.chain s with ⟨ra, evs⟩
  have hevs : evs = [Ev.configureLiFiSdk q.chain, Ev.getTokenAddress q.chain s] := by
    have := resolveTokenAddr_trace env q.chain s h0x
    rw [hra] at this
    exact this
  subst hevs
  rcases ra with e | tokenAddress
  · simp
  · show Ev.getTokenAddress q.chain s ∈
      (match TransferAction.erc20Value env tokenAddress q.amount
          (env.decimalsOf tokenAddress) with
       | (.error e, evs2) =>
         ((.error e : Except String TransferAction.TransferResponse),
          [Ev.configureLiFiSdk q.chain, Ev.getTokenAddress q.chain s] ++
            [Ev.readDecimals tokenAddress] ++ evs2)
       | (.ok value, evs2) =>
         match env.transferERC20Result with
         | .error e =>
           ((.error e : Except String TransferAction.TransferResponse),
            [Ev.configureLiFiSdk q.chain, Ev.getTokenAddress q.chain s] ++
              [Ev.readDecimals tokenAddress] ++ evs2 ++
              [Ev.transferERC20 tokenAddress q.toAddress value])
         | .ok h =>
           (.ok { chain := q.chain, txHash := h, recipient := q.toAddress,
                  amount := formatUnits (value : Int) (env.decimalsOf tokenAddress),
                  token := s },
            [Ev.configureLiFiSdk q.chain, Ev.getTokenAddress q.chain s] ++
              [Ev.readDecimals tokenAddress] ++ evs2 ++
              [Ev.transferERC20 tokenAddress q.toAddress value])).2
    rcases hev : TransferAction.erc20Value env tokenAddress q.amount
        (env.decimalsOf tokenAddress) with ⟨rv, evs2⟩
    rcases rv with e | value
    · simp
    · rcases env.transferERC20Result with e | hsh <;> simp

/-- C3 (counterexample): a swap request naming the native asset BNB as the from
token does issue a symbol-resolution call to the token directory — the native
sentinel only overrides the looked-up result afterwards — contradicting the claim
that no such call is ever issued for the native asset. -/
theorem c3_counterexample :
    Ev.getTokenAddress "bsc" "BNB" ∈
      (SwapAction.swap
        { tokenAddressOf := fun _ _ => .ok "0xB8c77482e45F1F44dE1745F52C74426C631bDD52",
          routesCount := 1, execStatus := some "DONE", execTxHash := "0xabc" }
        { chain := "bsc", fromToken := "BNB", toToken := "USDC", amount := "0.5",
          slippage := none }).2 := by decide

/-- C3 (amended): in the transfer action a native-asset token (absent or the BNB
symbol in either case) never triggers a token-directory lookup; in the swap action
every non-address token symbol — the native symbol BNB included — always triggers
the lookup; and a non-native non-address token symbol in the transfer action
always triggers the lookup. -/
theorem c3_theorem :
    (∀ (env : TransferAction.TransferEnv) (p : TransferAction.TransferParams),
      (p.token = none ∨ p.token = some "BNB" ∨ p.token = some "bnb") →
      ∀ ch sym, Ev.getTokenAddress ch sym ∉ (TransferAction.transfer env p).2) ∧
    (∀ (env : SwapAction.SwapEnv) (p : SwapAction.SwapParams) (v : Nat),
      p.chain = "bsc" → p.fromToken ≠ "" → p.toToken ≠ "" →
      p.fromToken ≠ p.toToken → p.amount ≠ "" →
      parseEther p.amount = some (v + 1) → p.slippage = none →
      strStartsWith p.fromToken "0x" = false →
      Ev.getTokenAddress "bsc" p.fromToken ∈ (SwapAction.swap env p).2) ∧
    (∀ (env : TransferAction.TransferEnv) (p : TransferAction.TransferParams)
       (a s : String),
      env.chains.contains p.chain = true → p.toAddress ≠ "" →
      env.formatAddress p.toAddress = .ok a → p.token = some s →
      strStartsWith s "0x" = false → s ≠ "" → s ≠ "null" → s ≠ "BNB" → s ≠ "bnb" →
      strToLower s ≠
        strToLower (if env.nativeSymbol = "" then "BNB" else env.nativeSymbol) →
      Ev.getTokenAddress p.chain s ∈ (TransferAction.transfer env p).2) := by
  refine ⟨transfer_native_no_lookup, ?_, ?_⟩
  · intro env p v hc hf ht hneq hamtne hparse hsl h0x
    have hval : SwapAction.validateAndNormalizeParams p =
        .ok { p with slippage := some { num := 5, exp := 2 } } := by
      simp only [SwapAction.validateAndNormalizeParams, hc, hsl]
      simp [hf, ht, hneq, hamtne, hparse]
      rw [hsl, hc]
    simp only [SwapAction.swap, hval]
    rcases hr1 : SwapAction.resolveSwapToken env "bsc" p.fromToken with ⟨res1, evs1⟩
    have hevs1 : evs1 = [Ev.getTokenAddress "bsc" p.fromToken] := by
      have := resolveSwapToken_trace env "bsc" p.fromToken h0x
      rw [hr1] at this
      exact this
    subst hevs1
    simp only [hc] at hr1 ⊢
    rw [hr1]
    rcases res1 with e | addr1
    · simp
    · rcases hr2 : SwapAction.resolveSwapToken env "bsc" p.toToken with ⟨res2, evs2⟩
      rcases res2 with e | addr2
      · simp
      · by_cases hroutes : env.routesCount = 0
        · simp [hroutes]
        · rcases hst : env.execStatus with _ | st
          · simp [hroutes, hst]
          · by_cases hfail : st = "FAILED" <;> simp [hroutes, hst, hfail]
  · intro env p a s hchain haddr hfmt htok h0x hse hnull hBNB hbnb hlow
    have hval := TransferAction.validate_ok env p a haddr hfmt
    have hne : s ≠ (if env.nativeSymbol = "" then "BNB" else env.nativeSymbol) :=
      fun hh => hlow (by rw [hh])
    simp only [TransferAction.transfer, hchain, hval]
    simp only [htok, hse, hlow, hne, hnull, hBNB, hbnb]
    norm_num [hse, hlow, hne, hnull, hBNB, hbnb]
    have h := erc20Run_lookup env
        { chain := p.chain, token := some s, amount := p.amount, toAddress := a } s h0x
    rcases her : TransferAction.erc20Run env
        { chain := p.chain, token := some s, amount := p.amount, toAddress := a } s
      with ⟨res, evs⟩
    rw [her] at h
    rcases res with e | r
    · simpa using h
    · exact finish_mem env r _ _ (by simp_all)

/-- C3 witness: with concrete runs, a BNB transfer issues no lookup, a USDT swap
issues the lookup, and a USDT transfer issues the lookup. -/
theorem c3_witness :
    (Ev.getTokenAddress "bsc" "USDT" ∉
      (TransferAction.transfer
        { chains := ["bsc"], nativeSymbol := "BNB",
          formatAddress := fun s => .ok s, balance := 0,
          tokenAddressOf := fun _ _ => .error "unavailable",
          decimalsOf := fun _ => 18, tokenBalanceOf := fun _ => 0,
          transferResult := .ok "0xh", transferERC20Result := .ok "0xh",
          waitReceiptResult := .ok () }
        { chain := "bsc", token := some "BNB", amount := some "1",
          toAddress := "0x1234567890123456789012345678901234567890" }).2) ∧
    (Ev.getTokenAddress "bsc" "USDT" ∈
      (SwapAction.swap
        { tokenAddressOf := fun _ _ => .ok "0x55d398326f99059fF775485246999027B3197955",
          routesCount := 1, execStatus := some "DONE", execTxHash := "0xh" }
        { chain := "bsc", fromToken := "USDT", toToken := "BNB", amount := "1",
          slippage := none }).2) ∧
    (Ev.getTokenAddress "bsc" "USDT" ∈
      (TransferAction.transfer
        { chains := ["bsc"], nativeSymbol := "BNB",
          formatAddress := fun s => .ok s, balance := 0,
          tokenAddressOf := fun _ _ => .ok "0x55d398326f99059fF775485246999027B3197955",
          decimalsOf := fun _ => 18, tokenBalanceOf := fun _ => 0,
          transferResult := .ok "0xh", transferERC20Result := .ok "0xh",
          waitReceiptResult := .ok () }
        { chain := "bsc", token := some "USDT", amount := some "1",
          toAddress := "0x1234567890123456789012345678901234567890" }).2) := by
  refine ⟨c3_theorem.1 _ _ (Or.inr (Or.inl rfl)) "bsc" "USDT", ?_, ?_⟩
  · exact c3_theorem.2.1 _
      { chain := "bsc", fromToken := "USDT", toToken := "BNB", amount := "1",
        slippage := none } 999999999999999999
      rfl (by decide) (by decide) (by decide) (by decide) (by decide) rfl (by decide)
  · exact c3_theorem.2.2 _
      { chain := "bsc", token := some "USDT", amount := some "1",
        toAddress := "0x1234567890123456789012345678901234567890" }
      "0x1234567890123456789012345678901234567890" "USDT"
      (by decide) (by decide) rfl rfl (by decide) (by decide) (by decide)
      (by decide) (by decide) (by decide)

/-- Helper: upper-casing preserves nonemptiness. -/
theorem strToUpper_ne_empty (s : String) (h : s ≠ "") : strToUpper s ≠ "" := by
  rcases s with ⟨l⟩
  cases l with
  | nil => exact absurd rfl h
  | cons c cs =>
    intro hc
    have hd := congrArg String.data hc
    simp [strToUpper] at hd

/-- C1 (counterexample): in the transfer handler the amount field prefers the
model-generated JSON value over the regex capture: with the transfer regex
matching the text (amount capture 0.5) and the JSON object carrying the different
amount 1.0, the resolved amount is the JSON value, not the value captured from
the text. -/
theorem c1_counterexample :
    (transferResolveParams
      (some { amount := "0.5", token := "BNB",
              toAddress := "0x1111111111111111111111111111111111111111" })
      true
      (some { chain := none, token := none, amount := some (.jstr "1.0"),
              toAddress := none })).amount = some "1.0" ∧
    ("1.0" : String) ≠ "0.5" := by
  exact ⟨rfl, by decide⟩

/-- C1 (amended): the regex-over-JSON-over-default priority holds for the transfer
token field and for every swap and bridge field, but the transfer handler resolves
its amount and recipient JSON-first: a present JSON field of the expected type wins
even when the regex matched, and the regex captures are only the fallback; the
hardcoded defaults apply when both sources are absent. -/
theorem c1_theorem (tm : TransferMatch) (cb : Bool) (tc : TransferContent)
    (sm : SwapMatch) (mentions : String → Bool) (sc : SwapContent)
    (pl : String) (bm : BridgeMatch) (bc : BridgeContent)
    (htm1 : tm.token ≠ "") (htm2 : tm.amount ≠ "") (htm3 : tm.toAddress ≠ "")
    (hsm1 : sm.amount ≠ "") (hsm2 : sm.fromToken ≠ "") (hsm3 : sm.toToken ≠ "")
    (hbm1 : bm.amount ≠ "") :
    ((transferResolveParams (some tm) cb (some tc)).token =
      some (strToUpper tm.token)) ∧
    (∀ s, s ≠ "" → tc.amount = some (.jstr s) →
      (transferResolveParams (some tm) cb (some tc)).amount = some s) ∧
    (tc.amount = none →
      (transferResolveParams (some tm) cb (some tc)).amount = some tm.amount) ∧
    (∀ a, tc.toAddress = some (.jstr a) →
      (transferResolveParams (some tm) cb (some tc)).toAddress = a) ∧
    (tc.toAddress = none →
      (transferResolveParams (some tm) cb (some tc)).toAddress = tm.toAddress) ∧
    (tc.token = none → (transferResolveParams none cb (some tc)).token = some "BNB") ∧
    ((swapResolveParams (some sm) mentions (some sc)).fromToken =
      strToUpper sm.fromToken) ∧
    ((swapResolveParams (some sm) mentions (some sc)).toToken =
      strToUpper sm.toToken) ∧
    ((swapResolveParams (some sm) mentions (some sc)).amount = sm.amount) ∧
    (∀ s, s ≠ "" → sc.inputToken = some (.jstr s) →
      (swapResolveParams none mentions (some sc)).fromToken = s) ∧
    (sc.amount = none → (swapResolveParams none mentions (some sc)).amount = "0.001") ∧
    ((bridgeResolve pl (some bm) (some bc)).amount = bm.amount) ∧
    (∀ t, t ≠ "" → bm.fromToken = some t →
      (bridgeResolve pl (some bm) (some bc)).fromToken = some (strToUpper t)) ∧
    (∀ ad, ad ≠ "" → strStartsWith ad "0x" = true → bm.toAddress = some ad →
      (bridgeResolve pl (some bm) (some bc)).toAddress = some ad) := by
  refine ⟨?_, ?_, ?_, ?_, ?_, ?_, ?_, ?_, ?_, ?_, ?_, ?_, ?_, ?_⟩
  · simp [transferResolveParams, transferEffContent, transferTokenOf,
      transferDirectTokenMatch, htm1, strToUpper_ne_empty tm.token htm1]
  · intro s hs hamt
    simp [transferResolveParams, transferEffContent, transferAmountOf, hamt, hs]
  · intro hamt
    simp [transferResolveParams, transferEffContent, transferAmountOf, hamt,
      transferAmountFallback, htm2]
  · intro a hta
    simp [transferResolveParams, transferEffContent, transferToAddressOf, hta]
  · intro hta
    simp [transferResolveParams, transferEffContent, transferToAddressOf, hta, htm3]
  · intro htok
    simp [transferResolveParams, transferEffContent, transferTokenOf,
      transferDirectTokenMatch, htok]
  · simp [swapResolveParams, swapDirects, swapFromTokenOf, hsm2]
  · simp [swapResolveParams, swapDirects, swapToTokenOf, hsm3]
  · simp [swapResolveParams, swapDirects, swapAmountOf, hsm1]
  · intro s hs hin
    simp [swapResolveParams, swapDirects, swapFromTokenOf, hin, hs]
  · intro hamt
    simp [swapResolveParams, swapDirects, swapAmountOf, hamt]
  · simp [bridgeResolve, bridgeDirects, bridgeAmountOf, hbm1]
  · intro t ht hfrom
    simp [bridgeResolve, bridgeDirects, bridgeFromTokenOf, hfrom, ht]
  · intro ad had h0x hto
    simp [bridgeResolve, bridgeDirects, bridgeToAddressOf, hto, had, h0x]

/-- C1 witness: the priority rules instantiated at concrete captures and contents. -/
theorem c1_witness :
    ((transferResolveParams
      (some { amount := "0.5", token := "usdt",
              toAddress := "0x1111111111111111111111111111111111111111" })
      false
      (some { chain := none, token := some (.jstr "CAKE"),
              amount := some (.jstr "2.0"), toAddress := none })).token =
      some "USDT") ∧
    ((transferResolveParams
      (some { amount := "0.5", token := "usdt",
              toAddress := "0x1111111111111111111111111111111111111111" })
      false
      (some { chain := none, token := some (.jstr "CAKE"),
              amount := some (.jstr "2.0"), toAddress := none })).amount =
      some "2.0") ∧
    ((swapResolveParams
      (some { amount := "3", fromToken := "bnb", toToken := "usdc" })
      (fun _ => false)
      (some { chain := none, inputToken := some (.jstr "CAKE"),
              outputToken := some (.jstr "DAI"), amount := some (.jstr "9"),
              slippage := none })).fromToken = "BNB") ∧
    ((bridgeResolve "bridge text"
      (some { amount := "4", fromToken := some "cake",
              toAddress := some "0x2222222222222222222222222222222222222222" })
      (some { fromChain := none, toChain := none, fromToken := some "DOGE",
              toToken := none, amount := some (.jstr "7"),
              toAddress := none })).fromToken = some "CAKE") ∧
    ((bridgeResolve "bridge text"
      (some { amount := "4", fromToken := some "cake",
              toAddress := some "0x2222222222222222222222222222222222222222" })
      (some { fromChain := none, toChain := none, fromToken := some "DOGE",
              toToken := none, amount := some (.jstr "7"),
              toAddress := none })).toAddress =
      some "0x2222222222222222222222222222222222222222") := by
  have h := c1_theorem
    { amount := "0.5", token := "usdt",
      toAddress := "0x1111111111111111111111111111111111111111" }
    false
    { chain := none, token := some (.jstr "CAKE"),
      amount := some (.jstr "2.0"), toAddress := none }
    { amount := "3", fromToken := "bnb", toToken := "usdc" }
    (fun _ => false)
    { chain := none, inputToken := some (.jstr "CAKE"),
      outputToken := some (.jstr "DAI"), amount := some (.jstr "9"),
      slippage := none }
    "bridge text"
    { amount := "4", fromToken := some "cake",
      toAddress := some "0x2222222222222222222222222222222222222222" }
    { fromChain := none, toChain := none, fromToken := some "DOGE",
      toToken := none, amount := some (.jstr "7"), toAddress := none }
    (by decide) (by decide) (by decide) (by decide) (by decide) (by decide)
    (by decide)
  refine ⟨h.1.trans (by decide), h.2.1 "2.0" (by decide) rfl, ?_, ?_, ?_⟩
  · exact h.2.2.2.2.2.2.1.trans (by decide)
  · exact (h.2.2.2.2.2.2.2.2.2.2.2.2.1 "cake" (by decide) rfl).trans (by decide)
  · exact h.2.2.2.2.2.2.2.2.2.2.2.2.2
      "0x2222222222222222222222222222222222222222" (by decide) (by decide) rfl

/-- C9 (counterexample): a rejected model invocation propagates past the handler
boundary as a thrown error instead of a boolean return, because the await of the
model call sits outside the try block. -/
theorem c9_counterexample :
    transferHandler c9ThrowEnv = .thrown "model request failed" ∧
    (∀ bo cbs, transferHandler c9ThrowEnv ≠ HandlerOutcome.returns bo cbs) := by
  refine ⟨rfl, ?_⟩
  intro bo cbs h
  rw [show transferHandler c9ThrowEnv = .thrown "model request failed" from rfl] at h
  exact HandlerOutcome.noConfusion h

/-- C9 (amended): once the model invocation has resolved, each of the three
handlers always returns a boolean — every error raised inside the execution phase
is caught — and an executor failure answers through the callback with the
human-readable rewritten message and the machine-readable error content. -/
theorem c9_theorem (t : TransferHandlerEnv) (s : SwapHandlerEnv) (b : BridgeHandlerEnv)
    (tc : Option TransferContent) (sc : Option SwapContent) (bc : Option BridgeContent)
    (htm : t.modelResult = .ok tc) (hsm : s.modelResult = .ok sc)
    (hbm : b.modelResult = .ok bc) :
    (∃ bo cbs, transferHandler t = .returns bo cbs) ∧
    (∃ bo cbs, swapHandler s = .returns bo cbs) ∧
    (∃ bo cbs, bridgeHandler b = .returns bo cbs) ∧
    (∀ e, (TransferAction.transfer t.chainEnv
        (transferResolveParams t.rmatch t.containsBnb tc)).1 = .error e →
      (t.source = "direct" ∨ t.source = "client_chat:user") →
      transferHandler t = .returns false
        [CB.failure ("Transfer failed: " ++
            transferErrorRewrite (transferResolveParams t.rmatch t.containsBnb tc) e)
          (transferErrorRewrite (transferResolveParams t.rmatch t.containsBnb tc) e)]) ∧
    (∀ e, (SwapAction.swap s.chainEnv
        (swapResolveParams s.rmatch s.mentions sc)).1 = .error e →
      swapHandler s = .returns false
        [CB.failure ("Swap failed: " ++
            swapErrorRewrite (swapResolveParams s.rmatch s.mentions sc) e)
          (swapErrorRewrite (swapResolveParams s.rmatch s.mentions sc) e)]) ∧
    (∀ e p0, b.walletInfoResult = .ok () →
      bridgeBuildParams (bridgeResolve b.promptLower b.rmatch bc) = .ok p0 →
      (BridgeAction.bridge b.chainEnv p0).1 = .error e →
      bridgeHandler b = .returns false
        [CB.failure ("Bridge failed: " ++ bridgeErrorRewrite e)
          (bridgeErrorRewrite e)]) := by
  refine ⟨?_, ?_, ?_, ?_, ?_, ?_⟩
  · simp only [transferHandler, htm]
    by_cases hsrc : t.source = "direct" ∨ t.source = "client_chat:user"
    · rw [if_neg (not_not_intro hsrc)]
      rcases hres : TransferAction.transfer t.chainEnv
          (transferResolveParams t.rmatch t.containsBnb tc) with ⟨res, evs⟩
      rcases res with e | r
      · exact ⟨false, _, rfl⟩
      · exact ⟨true, _, rfl⟩
    · rw [if_pos hsrc]
      exact ⟨false, _, rfl⟩
  · simp only [swapHandler, hsm]
    rcases hres : SwapAction.swap s.chainEnv
        (swapResolveParams s.rmatch s.mentions sc) with ⟨res, evs⟩
    rcases res with e | r
    · exact ⟨false, _, rfl⟩
    · exact ⟨true, _, rfl⟩
  · simp only [bridgeHandler]
    rcases hw : b.walletInfoResult with e | u
    · exact ⟨false, _, rfl⟩
    · simp only [hbm]
      rcases hbp : bridgeBuildParams (bridgeResolve b.promptLower b.rmatch bc) with e | p0
      · exact ⟨false, _, rfl⟩
      · rcases hres : BridgeAction.bridge b.chainEnv p0 with ⟨res, evs⟩
        rcases res with e | r
        · simp only [hres]
          exact ⟨false, _, rfl⟩
        · simp only [hres]
          exact ⟨true, _, rfl⟩
  · intro e herr hsrc
    simp only [transferHandler, htm]
    rw [if_neg (not_not_intro hsrc)]
    rcases hres : TransferAction.transfer t.chainEnv
        (transferResolveParams t.rmatch t.containsBnb tc) with ⟨res, evs⟩
    rw [hres] at herr
    simp at herr
    subst herr
    rfl
  · intro e herr
    simp only [swapHandler, hsm]
    rcases hres : SwapAction.swap s.chainEnv
        (swapResolveParams s.rmatch s.mentions sc) with ⟨res, evs⟩
    rw [hres] at herr
    simp at herr
    subst herr
    rfl
  · intro e p0 hw hbp herr
    simp only [bridgeHandler, hw, hbm, hbp]
    rcases hres : BridgeAction.bridge b.chainEnv p0 with ⟨res, evs⟩
    rw [hres] at herr
    simp at herr
    subst herr
    simp only [hres]

/-- C9 witness: concrete handler runs with resolved model invocations — each one
returns a boolean and the failure branches answer through the callback. -/
theorem c9_witness :
    (∃ bo cbs, transferHandler c9TEnv = .returns bo cbs) ∧
    (∃ bo cbs, swapHandler c9SEnv = .returns bo cbs) ∧
    (∃ bo cbs, bridgeHandler c9BEnv = .returns bo cbs) ∧
    (∀ e, (TransferAction.transfer c9TEnv.chainEnv
        (transferResolveParams c9TEnv.rmatch c9TEnv.containsBnb none)).1 = .error e →
      (c9TEnv.source = "direct" ∨ c9TEnv.source = "client_chat:user") →
      transferHandler c9TEnv = .returns false
        [CB.failure ("Transfer failed: " ++
            transferErrorRewrite (transferResolveParams c9TEnv.rmatch c9TEnv.containsBnb none) e)
          (transferErrorRewrite (transferResolveParams c9TEnv.rmatch c9TEnv.containsBnb none) e)]) ∧
    (∀ e, (SwapAction.swap c9SEnv.chainEnv
        (swapResolveParams c9SEnv.rmatch c9SEnv.mentions none)).1 = .error e →
      swapHandler c9SEnv = .returns false
        [CB.failure ("Swap failed: " ++
            swapErrorRewrite (swapResolveParams c9SEnv.rmatch c9SEnv.mentions none) e)
          (swapErrorRewrite (swapResolveParams c9SEnv.rmatch c9SEnv.mentions none) e)]) ∧
    (∀ e p0, c9BEnv.walletInfoResult = .ok () →
      bridgeBuildParams (bridgeResolve c9BEnv.promptLower c9BEnv.rmatch none) = .ok p0 →
      (BridgeAction.bridge c9BEnv.chainEnv p0).1 = .error e →
      bridgeHandler c9BEnv = .returns false
        [CB.failure ("Bridge failed: " ++ bridgeErrorRewrite e)
          (bridgeErrorRewrite e)]) :=
  c9_theorem c9TEnv c9SEnv c9BEnv none none none rfl rfl rfl

/-- C10: a resolved bridge from-token that is a symbol other than BNB and not a
0x address is passed to the executor as undefined — on a bsc source without a
truthy destination token the build step rejects instead — and the executor then
classifies the operation as a native-BNB bridge: the response names BNB, the
amount is parsed with the native 18 decimals, no decimals read or allowance step
occurs, and on the opBNB-to-bsc direction the withdraw call carries the amount
plus the delegation fee as native value. -/
theorem c10_theorem (r : BridgeResolved) (tok : String) (env : BridgeAction.BridgeEnv)
    (amtStr : String) (amt : Nat)
    (hft : r.fromToken = some tok) (htokne : tok ≠ "")
    (hnb : tok ≠ "BNB") (h0x : strStartsWith tok "0x" = false)
    (hamtne : amtStr ≠ "") (hpos : jsParseFloatPos amtStr = true)
    (hparse : parseEther amtStr = some amt) :
    (r.fromChain = "bsc" → ¬ optTruthy r.toToken →
       bridgeBuildParams r = .error "Missing destination token address") ∧
    (∀ p, bridgeBuildParams r = .ok p →
       p.fromToken = none ∧ BridgeAction.isNativeTokenBridge p = true) ∧
    (BridgeAction.bridge env
      { fromChain := "opBNB", toChain := "bsc", fromToken := none,
        toToken := none, amount := amtStr, toAddress := none } =
      (.ok { fromChain := "opBNB", toChain := "bsc", fromToken := "BNB", toToken := "BNB",
             amount := amtStr, txHash := env.writeHash, recipient := env.walletAddress },
       [Ev.switchChain "opBNB", Ev.readDelegationFee,
        Ev.simulate "withdraw",
        Ev.writeContract "withdraw" ((amt : Int) + (env.delegationFee : Int))])) := by
  refine ⟨?_, ?_, ?_⟩
  · intro hfc hnt
    have hnt2 : optTruthy r.toToken = false := by
      cases h : optTruthy r.toToken
      · rfl
      · exact absurd h hnt
    simp only [optTruthy] at hnt2
    simp [bridgeBuildParams, hft, hfc, optTruthy, htokne, hnb, hnt2]
  · intro p hp
    simp only [bridgeBuildParams] at hp
    split at hp
    · exact absurd hp (by simp)
    · have hp2 := hp
      injection hp2 with hp3
      subst hp3
      constructor
      · simp [hft, h0x]
      · simp [BridgeAction.isNativeTokenBridge, hft, h0x]
  · simp [BridgeAction.bridge, BridgeAction.validateAndNormalizeParams,
      BridgeAction.erc20DestCheck, BridgeAction.fromTokenIsBnb,
      BridgeAction.isNativeTokenBridge, BridgeAction.bridgeAmount,
      hamtne, hpos, hparse]

/-- C10 witness: the concrete intent bridging 0.5 USDT from bsc without a
destination token is rejected by the build step, any passed parameters carry an
undefined from-token classified native, and the concrete opBNB-to-bsc executor
run bridges 0.5 native BNB plus the delegation fee. -/
theorem c10_witness :
    (c10R.fromChain = "bsc" → ¬ optTruthy c10R.toToken →
       bridgeBuildParams c10R = .error "Missing destination token address") ∧
    (∀ p, bridgeBuildParams c10R = .ok p →
       p.fromToken = none ∧ BridgeAction.isNativeTokenBridge p = true) ∧
    (BridgeAction.bridge c10Env
      { fromChain := "opBNB", toChain := "bsc", fromToken := none,
        toToken := none, amount := "0.5", toAddress := none } =
      (.ok { fromChain := "opBNB", toChain := "bsc", fromToken := "BNB", toToken := "BNB",
             amount := "0.5", txHash := c10Env.writeHash, recipient := c10Env.walletAddress },
       [Ev.switchChain "opBNB", Ev.readDelegationFee,
        Ev.simulate "withdraw",
        Ev.writeContract "withdraw"
          ((500000000000000000 : Int) + (c10Env.delegationFee : Int))])) :=
  c10_theorem c10R "USDT" c10Env "0.5" 500000000000000000 rfl (by decide) (by decide)
    (by decide) (by decide) (by decide) (by decide)
